import Mathlib

/-!
Verification of the fall-detection decision engine of this repository
against its natural-language specification.

The development shallowly embeds the two revisions of the engine found in
the sources:
  * `backend/simple_backend.py` (the feature-complete revision; its class
    methods `calculate_velocity`, `calculate_angle`,
    `detect_head_downward_motion`, `detect_body_shape_change`,
    `detect_impact`, `analyze_temporal_pattern`, `assess_severity` and
    `process_frame` are translated below under their source names), and
  * `AWS-INRIX-Hack-Pack-2025/backend/simple_backend.py` (the pose-based
    revision; its `analyze_temporal_pattern`, `assess_severity_pose` and
    the emergency branch of its `process_frame` are translated with an
    `Aws` suffix or a `Pose` suffix as in the source).

Python floats are modelled by exact rationals.  The three transcendental
library calls the source makes (numpy sqrt, hypot and degrees-of-arctan2)
are modelled by an explicit bundle of function parameters `MathPrims`:
every universally quantified theorem below holds for an arbitrary bundle,
so no proved property depends on the value of those functions; concrete
evaluations instantiate the bundle with `refMath`, which agrees exactly
with IEEE semantics on the axis-aligned inputs those evaluations reach.
Wall-clock readings (time.time) are inputs: each frame carries its
timestamp.  Python exceptions are modelled by `Except Unit`: a KeyError
reachable in `detect_impact` (the shared `person_fall_patterns` dictionary
holds a pattern-stage record, not a stillness counter, by the time the
stillness branch runs) is an `.error ()`.
-/

namespace FallDetect

/-! ## Numeric and list helpers -/

/-- Python's int() on a float: truncation toward zero. -/
def pytrunc (q : ℚ) : ℤ := if 0 ≤ q then ⌊q⌋ else -⌊-q⌋

/-- numpy mean of a list (call sites guard against the empty list). -/
def meanQ (l : List ℚ) : ℚ := l.sum / (l.length : ℚ)

/-- Insertion into a sorted list, for the median. -/
def insertSorted (x : ℚ) : List ℚ → List ℚ
  | [] => [x]
  | y :: ys => if x ≤ y then x :: y :: ys else y :: insertSorted x ys

/-- Insertion sort on rationals. -/
def sortQ (l : List ℚ) : List ℚ := l.foldr insertSorted []

/-- numpy median: middle element of the sorted list, or the mean of the two
middle elements (call sites guard against the empty list). -/
def medianQ (l : List ℚ) : ℚ :=
  let s := sortQ l
  let n := s.length
  if n = 0 then 0
  else if n % 2 = 1 then s.getD (n / 2) 0
  else (s.getD (n / 2 - 1) 0 + s.getD (n / 2) 0) / 2

/-- Python's l[-n:]. -/
def takeLast {α : Type} (n : ℕ) (l : List α) : List α := l.drop (l.length - n)

/-- Python's `if len(l) > cap: l = l[-cap:]`. -/
def truncTo {α : Type} (cap : ℕ) (l : List α) : List α :=
  if cap < l.length then takeLast cap l else l

/-- Append one sample and evict the oldest beyond the capacity: the
history-buffer update pattern used throughout the source. -/
def appendTrunc {α : Type} (cap : ℕ) (l : List α) (x : α) : List α :=
  truncTo cap (l ++ [x])

/-- Python max() of a list (call sites guard against the empty list). -/
def maxListQ : List ℚ → ℚ
  | [] => 0
  | h :: t => t.foldl max h

/-- The transcendental primitives the source takes from numpy, as explicit
parameters: universally quantified theorems hold for every bundle. -/
structure MathPrims where
  sqrtQ : ℚ → ℚ
  hypotQ : ℚ → ℚ → ℚ
  atanDegQ : ℚ → ℚ → ℚ

/-- Reference bundle for concrete evaluations.  It matches floating-point
semantics exactly on the inputs those evaluations reach (hypot with a zero
component, arctan2 of zero); no universally quantified theorem depends on
its values elsewhere. -/
def refMath : MathPrims where
  sqrtQ := fun _ => 0
  hypotQ := fun x y => if x = 0 then |y| else if y = 0 then |x| else 0
  atanDegQ := fun x y => if x = 0 then 0 else if y = 0 then 90 else 45

/-! ## Configuration and per-track state -/

/-- The environment-tunable thresholds read in __init__. -/
structure Config where
  fallThresholdVelocity : ℚ
  fallThresholdAngle : ℚ
  emergencySeverityThreshold : ℤ
  verificationTime : ℚ

/-- Defaults of backend/simple_backend.py: 5.0, 75, 7, 5.0. -/
def defaultConfig : Config := ⟨5, 75, 7, 5⟩

/-- Motion states of detect_impact. -/
inductive Motion where
  | moving
  | impact
deriving DecidableEq

/-- Stages of the temporal pattern state machine. -/
inductive Stage where
  | none
  | descending
  | horizontal
deriving DecidableEq

/-- The stage record analyze_temporal_pattern keeps per track:
stage, t0 (frame of entering descending), k (horizontal confirmations),
m (stillness counter). -/
structure PatternState where
  stage : Stage
  t0 : ℤ
  k : ℤ
  m : ℤ
deriving DecidableEq

/-- What person_fall_patterns[pid] can hold: the stage record written by
analyze_temporal_pattern, or the bare stillness counter written by
detect_impact.  Reading a missing key of the other shape raises. -/
inductive FallPatternEntry where
  | stageD : PatternState → FallPatternEntry
  | stillD : ℤ → FallPatternEntry
deriving DecidableEq

/-- One consolidated record for the per-pid dictionaries of the source
(person_positions, person_velocities, person_accelerations, person_sizes,
person_head_positions, person_angles, person_center_positions,
person_aspect_ratios, person_motion_states, person_fall_patterns,
ema_vnorm, ema_angle). -/
structure TrackState where
  positions : List (ℚ × ℚ)
  velocities : List ℚ
  accelerations : List ℚ
  size : Option (ℚ × ℚ)
  headPositions : List ℚ
  angles : List ℚ
  hips : List (ℚ × ℚ)
  aspectRatios : List ℚ
  motion : Motion
  fallPattern : Option FallPatternEntry
  emaVnorm : Option ℚ
  emaAngle : Option ℚ

/-- A pid on its first sighting: every per-pid dictionary is empty. -/
def TrackState.empty : TrackState :=
  ⟨[], [], [], Option.none, [], [], [], [], .moving, Option.none, Option.none, Option.none⟩

/-! ## Kinematic feature extraction (backend/simple_backend.py) -/

/-- SimpleFallDetector.ema: EMA smoothing with the per-pid store value
(`Option.none` = pid not yet in the store, last defaults to the value). -/
def ema (store : Option ℚ) (value alpha : ℚ) : ℚ :=
  let last := store.getD value
  alpha * value + (1 - alpha) * last

/-- The velocity/acceleration arithmetic of calculate_velocity (lines
132-167), over the updated position history and the stored velocity
history: the noise-filtered weighted per-pair velocities of the last
deltas, their median, and the acceleration from the velocity history. -/
def velocityScalars (mp : MathPrims) (positions : List (ℚ × ℚ))
    (velocities : List ℚ) : ℚ × ℚ :=
  let rev := positions.reverse
  let recentVelocities := (List.range' 1 (min 6 positions.length - 1)).filterMap
    (fun i =>
      let dx := (rev.getD (i - 1) (0, 0)).1 - (rev.getD i (0, 0)).1
      let dy := (rev.getD (i - 1) (0, 0)).2 - (rev.getD i (0, 0)).2
      if |dx| < 2 ∧ |dy| < 2 then Option.none
      else if dy > 3 then some (mp.sqrtQ (dx * dx + (dy * (5/2))^2))
      else if dy < -2 then some (mp.sqrtQ (dx * dx + (dy * (1/10))^2) * (1/10))
      else some (mp.sqrtQ (dx * dx + (dy * (1/2))^2)))
  let avgVelocity := if recentVelocities ≠ [] then medianQ recentVelocities else 0
  let acceleration : ℚ :=
    if 3 ≤ velocities.length then
      let recentAvg := meanQ (takeLast 3 velocities)
      if 6 ≤ velocities.length then
        recentAvg - meanQ ((takeLast 6 velocities).take 3)
      else avgVelocity - (takeLast 1 velocities).headD 0
    else 0
  (avgVelocity, acceleration)

/-- calculate_velocity (lines 109-176): append the bbox centre to the
position history (capacity 15), return (0,0) below 5 samples, else the
velocity/acceleration scalars; the velocity and acceleration histories
are appended and truncated to 15 in lockstep. -/
def calculate_velocity (mp : MathPrims) (st : TrackState) (newPos : ℚ × ℚ)
    (boxSize : Option (ℚ × ℚ)) : (ℚ × ℚ) × TrackState :=
  let st1 : TrackState :=
    { st with positions := appendTrunc 15 st.positions newPos
              size := match boxSize with
                      | some s => some s
                      | Option.none => st.size }
  if st1.positions.length < 5 then ((0, 0), st1)
  else
    let s := velocityScalars mp st1.positions st1.velocities
    let avgVelocity := s.1
    let acceleration := s.2
    let v1 := st1.velocities ++ [avgVelocity]
    let a1 := st1.accelerations ++ [acceleration]
    if 15 < v1.length then
      ((avgVelocity, acceleration),
        { st1 with velocities := takeLast 15 v1, accelerations := takeLast 15 a1 })
    else
      ((avgVelocity, acceleration), { st1 with velocities := v1, accelerations := a1 })

/-- calculate_angle (lines 178-234): head-position based tilt estimate.
Below 5 head samples returns (0,0); else the median of bucketed angles of
significant downward head deltas, the angular velocity from the angle
history, and the angle history appended (capacity 15).  When no delta
qualifies it returns (0,0) without touching the history. -/
def calculate_angle (st : TrackState) : (ℚ × ℚ) × TrackState :=
  if st.headPositions.length < 5 then ((0, 0), st)
  else
    let rev := st.headPositions.reverse
    let angles := (List.range' 1 (min 6 st.headPositions.length - 1)).filterMap
      (fun i =>
        let dy := rev.getD (i - 1) 0 - rev.getD i 0
        if |dy| < 3 then Option.none
        else if dy > 15 then
          some (if dy > 25 then (85 : ℚ) else if dy > 18 then 75 else 60)
        else Option.none)
    if angles = [] then ((0, 0), st)
    else
      let currentAngle := medianQ angles
      let angularVelocity : ℚ :=
        if 3 ≤ st.angles.length then
          let recentAvg := meanQ (takeLast 3 st.angles)
          if 6 ≤ st.angles.length then
            recentAvg - meanQ ((takeLast 6 st.angles).take 3)
          else currentAngle - (takeLast 1 st.angles).headD 0
        else 0
      ((currentAngle, angularVelocity),
        { st with angles := appendTrunc 15 st.angles currentAngle })

/-- detect_head_downward_motion (lines 236-271): score a rapid or large
head drop from the (already updated) head-position history.  The head_y
and torso_y parameters of the source are unused by its body. -/
def detect_head_downward_motion (st : TrackState) (headY : ℚ) : ℚ :=
  let _ := headY
  if st.headPositions.length < 3 then 0
  else
    let rev := st.headPositions.reverse
    let headVelocities := (List.range' 1 (min 4 st.headPositions.length - 1)).map
      (fun i => rev.getD (i - 1) 0 - rev.getD i 0)
    let avgHeadVelocity := meanQ headVelocities
    let totalDrop := rev.headD 0 - st.headPositions.headD 0
    if avgHeadVelocity > 10 ∧ totalDrop > 25 then min 3 (totalDrop / 15)
    else if 5 ≤ st.headPositions.length then
      let initialY := meanQ (st.headPositions.take 3)
      let recentY := meanQ (takeLast 3 st.headPositions)
      if recentY > initialY + 30 then min 2 ((recentY - initialY) / 20) else 0
    else 0

/-- detect_body_shape_change (lines 273-301): append the aspect ratio
(capacity 10) and score a rising trend of the recent mean over the
earliest stored mean. -/
def detect_body_shape_change (st : TrackState) (width height : ℚ) : ℚ × TrackState :=
  let aspectRatio := if height > 0 then width / height else 1
  let l := appendTrunc 10 st.aspectRatios aspectRatio
  let st1 := { st with aspectRatios := l }
  if l.length < 5 then (0, st1)
  else
    let recentRatio := meanQ (takeLast 3 l)
    let earlierRatio := meanQ (l.take 3)
    if recentRatio > earlierRatio * (13/10) then
      (min 2 ((recentRatio - earlierRatio) * 2), st1)
    else (0, st1)

/-- detect_impact (lines 303-337): flag a high-velocity-then-sudden-drop
pattern (3.0 once per entry into the impact state), then count stillness
frames after impact in person_fall_patterns['still_frames'].  When that
dictionary entry holds the stage record written by
analyze_temporal_pattern instead, the increment raises KeyError, modelled
as `.error ()`.  The acceleration-history parameter of the source is
unused by its body. -/
def detect_impact (cfg : Config) (st : TrackState) (currentVelocity accelHistory : ℚ) :
    Except Unit (ℚ × TrackState) :=
  let _ := accelHistory
  let recent := takeLast 5 st.velocities
  let maxVelocity := maxListQ (recent.take 3)
  let recentVelocity := recent.getD 4 0
  -- the early return of lines 320-323; in every other case the source
  -- falls through to the stillness block
  if 5 ≤ st.velocities.length ∧
      (maxVelocity > cfg.fallThresholdVelocity * 2 ∧
        recentVelocity < maxVelocity * (3/10)) ∧
      st.motion ≠ .impact then
    .ok (3, { st with motion := .impact })
  else
    if st.motion = .impact then
      if currentVelocity < cfg.fallThresholdVelocity * (1/2) then
        match st.fallPattern with
        | Option.none =>
          -- init {'still_frames': 0} then increment to 1; 1 > 3 is false
          .ok (0, { st with fallPattern := some (.stillD 1) })
        | some (.stillD n) =>
          if n + 1 > 3 then .ok (2, { st with fallPattern := some (.stillD (n + 1)) })
          else .ok (0, { st with fallPattern := some (.stillD (n + 1)) })
        | some (.stageD _) => .error ()
      else .ok (0, st)
    else .ok (0, st)

/-! ## Temporal pattern state machines -/

/-- analyze_temporal_pattern of backend/simple_backend.py (lines 339-383),
acting on a stage record (the caller resolves the dictionary entry):
none -> descending on fast smoothed descent, descending -> horizontal on
a second over-70-degree frame within the duration bound (returning 1.5),
timeout reset to none, stillness counting in horizontal (returning 2.5 at
and after the stillness threshold), and the final stillness-expiry reset.
An early return (the 0.0 on entering descending, the 1.5 and the 2.5)
skips the stillness-expiry block, as in the source. -/
def analyze_temporal_pattern (frameCount fallDurationFrames stillFramesNeeded : ℤ)
    (st : PatternState) (vNorm torsoAngle : ℚ) : ℚ × PatternState :=
  if st.stage = .none ∧ vNorm > 4/5 then
    (0, { stage := .descending, t0 := frameCount, k := 0, m := 0 })
  else
    let cont : Option ℚ × PatternState :=
      if st.stage = .descending then
        if torsoAngle > 70 then
          let st1 := { st with k := st.k + 1 }
          if frameCount - st.t0 ≤ fallDurationFrames ∧ 2 ≤ st1.k then
            (some (3/2), { st1 with stage := .horizontal })
          else (Option.none, st1)
        else if frameCount - st.t0 > fallDurationFrames then
          (Option.none, { st with stage := .none, k := 0 })
        else (Option.none, st)
      else if st.stage = .horizontal then
        let st1 := { st with m := st.m + 1 }
        if stillFramesNeeded ≤ st1.m then (some (5/2), st1)
        else (Option.none, st1)
      else (Option.none, st)
    match cont with
    | (some score, st1) => (score, st1)
    | (Option.none, st1) =>
      if vNorm < 1/5 ∧ st1.stage ≠ .none ∧
          frameCount - st1.t0 > 2 * stillFramesNeeded then
        (0, { st1 with stage := .none, k := 0, m := 0 })
      else (0, st1)

/-- analyze_temporal_pattern of the AWS revision (lines 125-152): the same
machine without the 1.5 emission (the transition frame falls through to
the final 0.0) and without the stillness-expiry reset; entering descending
does not reset k and m, and the timeout reset clears only k. -/
def analyze_temporal_patternAws (frameCount fallDurationFrames stillFramesNeeded : ℤ)
    (st : PatternState) (vNorm torsoAngle : ℚ) : ℚ × PatternState :=
  if st.stage = .none ∧ vNorm > 4/5 then
    (0, { st with stage := .descending, t0 := frameCount })
  else if st.stage = .descending then
    if torsoAngle > 70 then
      let st1 := { st with k := st.k + 1 }
      if frameCount - st.t0 ≤ fallDurationFrames ∧ 2 ≤ st1.k then
        (0, { st1 with stage := .horizontal })
      else (0, st1)
    else if frameCount - st.t0 > fallDurationFrames then
      (0, { st with stage := .none, k := 0 })
    else (0, st)
  else if st.stage = .horizontal then
    let st1 := { st with m := st.m + 1 }
    if stillFramesNeeded ≤ st1.m then (5/2, st1) else (0, st1)
  else (0, st)

/-- The dictionary wrapper of analyze_temporal_pattern: a missing entry is
initialised to the none-stage record; an entry holding detect_impact's
bare stillness counter has no 'stage' key, so reading it raises KeyError,
modelled as `.error ()`. -/
def analyze_temporal_pattern_entry (frameCount fallDurationFrames stillFramesNeeded : ℤ)
    (st : TrackState) (vNorm torsoAngle : ℚ) : Except Unit (ℚ × TrackState) :=
  match st.fallPattern with
  | some (.stillD _) => .error ()
  | Option.none =>
    let r := analyze_temporal_pattern frameCount fallDurationFrames stillFramesNeeded
      ⟨.none, 0, 0, 0⟩ vNorm torsoAngle
    .ok (r.1, { st with fallPattern := some (.stageD r.2) })
  | some (.stageD ps) =>
    let r := analyze_temporal_pattern frameCount fallDurationFrames stillFramesNeeded
      ps vNorm torsoAngle
    .ok (r.1, { st with fallPattern := some (.stageD r.2) })

/-! ## Severity scorers -/

/-- The strong-indicator count accumulated inside assess_severity
(lines 385-456): the velocity indicator is counted inside the
velocity-points branch and the angle indicator inside the angle-points
branch, exactly as the source nests them. -/
def strongIndicators (cfg : Config)
    (velocity angle angularVelocity headScore shapeScore impactScore patternScore : ℚ) : ℕ :=
  (if velocity > cfg.fallThresholdVelocity * (3/2) ∧
      velocity > cfg.fallThresholdVelocity * 2 then 1 else 0)
  + (if (angularVelocity > 5 ∧ angle > cfg.fallThresholdAngle) ∧
      (angle > cfg.fallThresholdAngle + 15 ∧ angularVelocity > 15) then 1 else 0)
  + (if headScore > 3/2 then 1 else 0)
  + (if shapeScore > 1 then 1 else 0)
  + (if impactScore > 2 then 1 else 0)
  + (if patternScore > 1 then 1 else 0)

/-- The severity total of assess_severity before the final clamp. -/
def assess_severity_raw (cfg : Config)
    (velocity acceleration angle angularVelocity headScore shapeScore impactScore
      patternScore : ℚ) : ℤ :=
  let velocityPoints : ℚ :=
    if velocity > cfg.fallThresholdVelocity * (3/2) then
      min 3 (((velocity - cfg.fallThresholdVelocity * (3/2)) / cfg.fallThresholdVelocity) * 3)
    else 0
  let velocityPoints :=
    if velocity > cfg.fallThresholdVelocity ∧ acceleration > 1 then
      velocityPoints * (13/10)
    else velocityPoints
  let anglePoints : ℚ :=
    if angularVelocity > 5 ∧ angle > cfg.fallThresholdAngle then
      min 3 (((angle - cfg.fallThresholdAngle) / 30) * 3)
    else 0
  let anglePoints :=
    if angle > cfg.fallThresholdAngle ∧ angularVelocity > 10 then anglePoints * (11/10)
    else if angularVelocity < 5 then anglePoints * (3/10)
    else anglePoints
  let headPoints : ℤ := if headScore > 3/2 then min 2 (pytrunc headScore) else 0
  let shapePoints : ℤ := if shapeScore > 1 then min 2 (pytrunc shapeScore) else 0
  let impactPoints : ℤ := if impactScore > 2 then min 2 (pytrunc impactScore) else 0
  let patternPoints : ℤ := if patternScore > 1 then min 1 (pytrunc patternScore) else 0
  let strong := strongIndicators cfg velocity angle angularVelocity headScore shapeScore
    impactScore patternScore
  let severity : ℤ := 1 + pytrunc velocityPoints + pytrunc anglePoints + headPoints
    + shapePoints + impactPoints + patternPoints
  let severity := if 3 ≤ strong then severity + 1 else severity
  if velocity < 1 ∧ strong < 3 then 1 else severity

/-- assess_severity of backend/simple_backend.py (lines 385-456): the
multi-indicator additive score with the static hard floor, clamped into
[1, 10]. -/
def assess_severity (cfg : Config)
    (velocity acceleration angle angularVelocity headScore shapeScore impactScore
      patternScore : ℚ) : ℤ :=
  min 10 (max 1 (assess_severity_raw cfg velocity acceleration angle angularVelocity
    headScore shapeScore impactScore patternScore))

/-- assess_severity_pose of the AWS revision (lines 154-193): additive
pose-based score with the suppression rules, clamped into [1.0, 10.0].
The velocity, angle and pid parameters of the source are unused by its
body. -/
def assess_severity_pose (velocity angle : ℚ) (pid : ℤ)
    (vNorm torsoAngle patternScore : ℚ) (nearFloor : Bool) : ℚ :=
  let _ := velocity
  let _ := angle
  let _ := pid
  let s : ℚ := 1
  let s := if vNorm > 4/5 then s + 2 else if vNorm > 1/2 then s + 1 else s
  let s := if torsoAngle > 80 then s + 5/2
    else if torsoAngle > 70 then s + 3/2
    else if torsoAngle > 60 then s + 1/2
    else s
  let s := s + patternScore
  let s := if nearFloor = true ∧ torsoAngle > 70 then s + 1 else s
  let s := if torsoAngle < 45 ∧ vNorm > 3/5 then s - 1 else s
  let s := if torsoAngle > 60 ∧ vNorm < 3/10 then s - 1/2 else s
  max 1 (min 10 s)

/-! ## Emergency verification state machines -/

/-- The per-frame person status computed over the detections in
process_frame (lines 700-708): fall_detected on any severity at or above
the emergency threshold (with break), else suspicious on any severity
above 3, else normal. -/
inductive Status where
  | fall
  | suspicious
  | normal
deriving DecidableEq

/-- The status-scanning loop of process_frame over the per-detection
severities. -/
def personStatus (threshold : ℤ) : List ℤ → Status
  | [] => .normal
  | s :: rest =>
    if threshold ≤ s then .fall
    else match personStatus threshold rest with
      | .fall => .fall
      | .suspicious => .suspicious
      | .normal => if s > 3 then .suspicious else .normal

/-- emergency_active and emergency_start_time. -/
structure EmState where
  active : Bool
  start : ℚ
deriving DecidableEq

/-- The emergency transition events emitted by the two process_frame
revisions ('emergency_alert', 'emergency_verifying', 'emergency_verified',
'emergency_cleared', 'monitoring_recovery'). -/
inductive EmEvent where
  | alert
  | verifying
  | verified
  | cleared
  | monitoringRecovery
deriving DecidableEq

/-- The emergency branch of process_frame in backend/simple_backend.py
(lines 710-782), keyed on the person status: raising stores the start
time; while fall persists, a verified event is emitted on every frame
whose elapsed time reaches the verification window, with no state change;
a normal frame during an active emergency clears it as soon as the time
since the emergency STARTED exceeds 3 seconds, else emits
monitoring_recovery; a suspicious frame changes nothing. -/
def emergencyStepSrc (verificationTime : ℚ) (es : EmState) (status : Status) (now : ℚ) :
    EmState × Option EmEvent :=
  match status with
  | .fall =>
    if es.active = false then (⟨true, now⟩, some .alert)
    else if verificationTime ≤ now - es.start then (es, some .verified)
    else (es, some .verifying)
  | .normal =>
    if es.active = true then
      if now - es.start > 3 then (⟨false, 0⟩, some .cleared)
      else (es, some .monitoringRecovery)
    else (es, Option.none)
  | .suspicious => (es, Option.none)

/-- The emergency branch of process_frame in the AWS revision
(lines 613-686), keyed on the frame's max severity: raising stores the
start time; the first frame whose elapsed time reaches the verification
window emits verified and resets the state to inactive; any
below-threshold frame clears an active emergency immediately. -/
def emergencyStepAws (threshold verificationTime : ℚ) (es : EmState) (maxSeverity now : ℚ) :
    EmState × Option EmEvent :=
  if threshold ≤ maxSeverity then
    if es.active = false then (⟨true, now⟩, some .alert)
    else if verificationTime ≤ now - es.start then (⟨false, 0⟩, some .verified)
    else (es, some .verifying)
  else
    if es.active = true then (⟨false, 0⟩, some .cleared)
    else (es, Option.none)

/-- Fold the AWS emergency machine over a list of (max severity,
timestamp) frames, collecting the per-frame event slots. -/
def runAwsEm (threshold verificationTime : ℚ) (es : EmState) :
    List (ℚ × ℚ) → List (Option EmEvent) × EmState
  | [] => ([], es)
  | (sev, now) :: rest =>
    let r := emergencyStepAws threshold verificationTime es sev now
    let rr := runAwsEm threshold verificationTime r.1 rest
    (r.2 :: rr.1, rr.2)

/-- Fold the src emergency machine over a list of (status, timestamp)
frames, collecting the per-frame event slots. -/
def runSrcEm (verificationTime : ℚ) (es : EmState) :
    List (Status × ℚ) → List (Option EmEvent) × EmState
  | [] => ([], es)
  | (status, now) :: rest =>
    let r := emergencyStepSrc verificationTime es status now
    let rr := runSrcEm verificationTime r.1 rest
    (r.2 :: rr.1, rr.2)

/-! ## Frame orchestration (process_frame of backend/simple_backend.py) -/

/-- The four keypoints process_frame reads from the pose model (indices 5,
6, 11, 12 of the COCO set): left/right shoulder and left/right hip.
`Option.none` upstream stands for keypoints being absent or too short
(the kps/len(kp) guards of lines 576-579). -/
structure Kpts where
  ls : ℚ × ℚ
  rs : ℚ × ℚ
  lh : ℚ × ℚ
  rh : ℚ × ℚ

/-- The validity check of line 582: each of the four keypoints has at
least one positive coordinate. -/
def kptsValid (k : Kpts) : Prop :=
  (0 < k.ls.1 ∨ 0 < k.ls.2) ∧ (0 < k.rs.1 ∨ 0 < k.rs.2) ∧
  (0 < k.lh.1 ∨ 0 < k.lh.2) ∧ (0 < k.rh.1 ∨ 0 < k.rh.2)

instance (k : Kpts) : Decidable (kptsValid k) := by
  unfold kptsValid; infer_instance

/-- One tracked person box handed to the engine by the detector/tracker
for one frame: the bbox corners, the tracker id when present (person
count is the fallback), and the keypoint set when present. -/
structure TrackObs where
  pid : Option ℤ
  x1 : ℚ
  y1 : ℚ
  x2 : ℚ
  y2 : ℚ
  kpts : Option Kpts

/-- One frame of engine input: frame height (for floor proximity) and the
wall-clock timestamp standing for the time.time() reads of the frame. -/
structure FrameInput where
  height : ℚ
  timestamp : ℚ
  tracks : List TrackObs

/-- One entry of the detections list process_frame builds (lines 653-666). -/
structure Detection where
  id : ℤ
  bbox : ℤ × ℤ × ℤ × ℤ
  center : ℤ × ℤ
  velocity : ℚ
  acceleration : ℚ
  angle : ℚ
  angularVelocity : ℚ
  headScore : ℚ
  shapeScore : ℚ
  impactScore : ℚ
  patternScore : ℚ
  severity : ℤ

/-- The torso-length divisor of line 588: numpy hypot of the torso vector,
clamped below by 1.0 before it divides the hip-height delta. -/
def torsoLen (mp : MathPrims) (vx vy : ℚ) : ℚ := max 1 (mp.hypotQ vx vy)

/-- The pose block of process_frame (lines 576-607): with valid keypoints,
the shoulder/hip midpoints, the torso vector and its clamped length, the
angle to vertical, the hip-midpoint history push (with the normalized
vertical velocity computed before the capacity-20 truncation) and the
floor-proximity test; otherwise the neutral signals.  Returns
((angle to vertical, normalized vertical velocity, near floor), state). -/
def poseBlock (mp : MathPrims) (frameHeight : ℚ) (obs : TrackObs) (st : TrackState) :
    (ℚ × ℚ × Bool) × TrackState :=
  match obs.kpts with
  | some k =>
    if kptsValid k then
      let shoulderMid := ((k.ls.1 + k.rs.1) / 2, (k.ls.2 + k.rs.2) / 2)
      let hipMid := ((k.lh.1 + k.rh.1) / 2, (k.lh.2 + k.rh.2) / 2)
      let vx := hipMid.1 - shoulderMid.1
      let vy := hipMid.2 - shoulderMid.2
      let tl := torsoLen mp vx vy
      let angleToVertical := mp.atanDegQ |vx| |vy|
      let hist := st.hips ++ [hipMid]
      let vNorm : ℚ :=
        if 2 ≤ hist.length then
          ((hist.getD (hist.length - 1) (0, 0)).2 - (hist.getD (hist.length - 2) (0, 0)).2) / tl
        else 0
      let nearFloor : Bool :=
        if max obs.y1 obs.y2 > (85/100) * frameHeight ∨
            hipMid.2 > (80/100) * frameHeight then true else false
      ((angleToVertical, vNorm, nearFloor), { st with hips := truncTo 20 hist })
    else ((0, 0, false), st)
  | Option.none => ((0, 0, false), st)

/-- The per-track body of process_frame (lines 561-666) for one detection
that passed the size filter: pose-signal extraction, history updates, the
EMA smoothing, the kinematic calculations, the four detectors, the
temporal machine and the severity score.  The two dictionary accesses
that can raise propagate as `.error ()`. -/
def stepTrack (mp : MathPrims) (cfg : Config)
    (frameCount fallDurationFrames stillFramesNeeded : ℤ) (frameHeight : ℚ)
    (pid : ℤ) (obs : TrackObs) (st : TrackState) :
    Except Unit (Detection × TrackState) :=
  let width := obs.x2 - obs.x1
  let height := obs.y2 - obs.y1
  let centerX := pytrunc ((obs.x1 + obs.x2) / 2)
  let centerY := pytrunc ((obs.y1 + obs.y2) / 2)
  let pose := poseBlock mp frameHeight obs st
  let angleToVertical := pose.1.1
  let vNorm := pose.1.2.1
  let nearFloor := pose.1.2.2
  let st1 := pose.2
  -- head position stored first (lines 609-617)
  let headY : ℚ := (pytrunc obs.y1 : ℤ)
  let st2 := { st1 with headPositions := appendTrunc 15 st1.headPositions headY }
  -- EMA smoothing (lines 619-621)
  let vNormSmooth := ema st2.emaVnorm vNorm (1/4)
  let angleSmooth := ema st2.emaAngle angleToVertical (1/5)
  let st3 := { st2 with emaVnorm := some vNormSmooth, emaAngle := some angleSmooth }
  -- velocity and angle (lines 623-631)
  let rv := calculate_velocity mp st3 ((centerX : ℚ), (centerY : ℚ)) (some (width, height))
  let velocity0 := rv.1.1
  let acceleration := rv.1.2
  let st4 := rv.2
  let ra := calculate_angle st4
  let angleB := ra.1.1
  let angularVelocity := ra.1.2
  let st5 := ra.2
  let angle := if angleToVertical > 0 then angleToVertical else angleB
  let velocity := if vNorm > 0 then max velocity0 (vNormSmooth * 10) else velocity0
  -- detectors (lines 633-645)
  let headScore := detect_head_downward_motion st5 headY
  let rs := detect_body_shape_change st5 width height
  let shapeScore := rs.1
  let st6 := rs.2
  match detect_impact cfg st6 velocity acceleration with
  | .error e => .error e
  | .ok (impactScore0, st7) =>
    let impactScore := if nearFloor = true ∧ angleSmooth > 70 then impactScore0 + 1
      else impactScore0
    match analyze_temporal_pattern_entry frameCount fallDurationFrames stillFramesNeeded
        st7 vNormSmooth angleSmooth with
    | .error e => .error e
    | .ok (patternScore, st8) =>
      let severity := assess_severity cfg velocity acceleration angle angularVelocity
        headScore shapeScore impactScore patternScore
      .ok ({ id := pid,
             bbox := (pytrunc obs.x1, pytrunc obs.y1, pytrunc obs.x2, pytrunc obs.y2),
             center := (centerX, centerY),
             velocity := velocity, acceleration := acceleration,
             angle := angle, angularVelocity := angularVelocity,
             headScore := headScore, shapeScore := shapeScore,
             impactScore := impactScore, patternScore := patternScore,
             severity := severity }, st8)

/-- The per-pid track-state map (the collection of per-pid dictionaries). -/
def TrackMap : Type := List (ℤ × TrackState)

/-- Dictionary read with lazy creation: a pid never seen before reads as
the all-empty record. -/
def lookupTrack (m : TrackMap) (pid : ℤ) : TrackState :=
  match m.find? (fun e => e.1 = pid) with
  | some e => e.2
  | Option.none => TrackState.empty

/-- Dictionary write. -/
def insertTrack (m : TrackMap) (pid : ℤ) (st : TrackState) : TrackMap :=
  (pid, st) :: m.filter (fun e => ¬ e.1 = pid)

/-- The detection loop of process_frame (lines 546-680): size-filter each
box (width > 50 and height > 100), assign the tracker id or the running
person count, run the per-track body, and accumulate the person count,
the detections and the frame maximum severity. -/
def processTracks (mp : MathPrims) (cfg : Config)
    (frameCount fallDurationFrames stillFramesNeeded : ℤ) (frameHeight : ℚ) :
    List TrackObs → ℤ × List Detection × ℚ × TrackMap →
    Except Unit (ℤ × List Detection × ℚ × TrackMap)
  | [], acc => .ok acc
  | obs :: rest, (personCount, dets, maxSev, tm) =>
    if obs.x2 - obs.x1 > 50 ∧ obs.y2 - obs.y1 > 100 then
      let personCount1 := personCount + 1
      let pid := obs.pid.getD personCount1
      match stepTrack mp cfg frameCount fallDurationFrames stillFramesNeeded frameHeight
          pid obs (lookupTrack tm pid) with
      | .error e => .error e
      | .ok (det, stNew) =>
        processTracks mp cfg frameCount fallDurationFrames stillFramesNeeded frameHeight
          rest (personCount1, dets ++ [det], max maxSev (det.severity : ℚ),
            insertTrack tm pid stNew)
    else
      processTracks mp cfg frameCount fallDurationFrames stillFramesNeeded frameHeight
        rest (personCount, dets, maxSev, tm)

/-- The whole-engine mutable state of SimpleFallDetector that the frame
path reads and writes. -/
structure EngineState where
  frameCount : ℤ
  fps : ℚ
  lastTs : ℚ
  fallDurationFrames : ℤ
  stillFramesNeeded : ℤ
  tracks : TrackMap
  maxSeverity : ℚ
  emergency : EmState
  totalDetections : ℤ
  currentPeopleCount : ℤ

/-- The engine state as __init__ builds it at construction time t0:
fps 30, the frame-rate-derived windows max(3, int(30*0.8)) = 24 and
max(6, int(30*1.0)) = 30, empty per-track maps, no emergency. -/
def initEngineState (t0 : ℚ) : EngineState :=
  ⟨0, 30, t0, 24, 30, [], 1, ⟨false, 0⟩, 0, 0⟩

/-- What one process_frame call returns to its caller (besides the
annotated image, which is presentation only): the people count, the
detections, the frame's running max severity, and at most one emergency
transition event. -/
structure FrameResult where
  peopleCount : ℤ
  detections : List Detection
  maxSeverity : ℚ
  event : Option EmEvent

/-- process_frame of backend/simple_backend.py (lines 517-807): frame
counting, smoothed-FPS re-estimation with the derived frame windows, the
detection loop, the peak-severity bookkeeping (lines 686-694), the status
scan and the emergency machine.  The model drops the image drawing and
the S3/DynamoDB emissions (side-effect intents that read no state back). -/
def process_frame (mp : MathPrims) (cfg : Config) (es : EngineState)
    (input : FrameInput) : Except Unit (FrameResult × EngineState) :=
  let frameCount := es.frameCount + 1
  let dt := max (1/1000) (input.timestamp - es.lastTs)
  let fps := (9/10) * es.fps + (1/10) * (1/dt)
  let fallDurationFrames := max 3 (pytrunc (fps * (4/5)))
  let stillFramesNeeded := max 6 (pytrunc (fps * 1))
  match processTracks mp cfg frameCount fallDurationFrames stillFramesNeeded input.height
      input.tracks (0, [], es.maxSeverity, es.tracks) with
  | .error e => .error e
  | .ok (personCount, dets, maxSev, tracks) =>
    let newMaxSeverity :=
      if maxSev > es.maxSeverity then maxSev
      else if maxSev < es.maxSeverity ∧ maxSev ≤ 1 then max 1 (es.maxSeverity - 1)
      else es.maxSeverity
    let status := personStatus cfg.emergencySeverityThreshold (dets.map Detection.severity)
    let em := emergencyStepSrc cfg.verificationTime es.emergency status input.timestamp
    .ok ({ peopleCount := personCount, detections := dets, maxSeverity := maxSev,
           event := em.2 },
         { frameCount := frameCount, fps := fps, lastTs := input.timestamp,
           fallDurationFrames := fallDurationFrames,
           stillFramesNeeded := stillFramesNeeded, tracks := tracks,
           maxSeverity := newMaxSeverity, emergency := em.1,
           totalDetections := es.totalDetections + 1,
           currentPeopleCount := personCount })

/-- Run the engine over a frame sequence; a raised exception aborts the
run as it kills the camera loop in the source. -/
def runEngine (mp : MathPrims) (cfg : Config) (es : EngineState) :
    List FrameInput → Except Unit (List FrameResult × EngineState)
  | [] => .ok ([], es)
  | f :: fs =>
    match process_frame mp cfg es f with
    | .error e => .error e
    | .ok (r, es1) =>
      match runEngine mp cfg es1 fs with
      | .error e => .error e
      | .ok (rs, esf) => .ok (r :: rs, esf)

/-! ## Helper runners for concrete evaluations -/

/-- Fold analyze_temporal_pattern over (frame index, smoothed velocity,
smoothed angle) triples, collecting the emitted scores. -/
def runPatternSrc (fallDurationFrames stillFramesNeeded : ℤ) :
    List (ℤ × ℚ × ℚ) → PatternState → List ℚ × PatternState
  | [], st => ([], st)
  | (fc, v, a) :: rest, st =>
    let r := analyze_temporal_pattern fc fallDurationFrames stillFramesNeeded st v a
    let rr := runPatternSrc fallDurationFrames stillFramesNeeded rest r.2
    (r.1 :: rr.1, rr.2)

/-- The per-frame per-detection severities of an engine run (empty on an
aborted run). -/
def resultSeverities (r : Except Unit (List FrameResult × EngineState)) : List (List ℤ) :=
  match r with
  | .error _ => []
  | .ok (rs, _) => rs.map (fun fr => fr.detections.map Detection.severity)

/-- The per-frame per-detection reported angles of an engine run. -/
def resultAngles (r : Except Unit (List FrameResult × EngineState)) : List (List ℚ) :=
  match r with
  | .error _ => []
  | .ok (rs, _) => rs.map (fun fr => fr.detections.map Detection.angle)

/-! ## C1: severity stays in [1, 10] -/

/-- C1 (amended): both severity scorers always return a value in the
closed interval [1, 10] — assess_severity an integer, assess_severity_pose
a rational — for every configuration and every input.  In this exact
rational model no NaN exists; the final clamp alone forces the bounds. -/
theorem c1_severity_bounds :
    (∀ (cfg : Config) (velocity acceleration angle angularVelocity headScore shapeScore
        impactScore patternScore : ℚ),
      1 ≤ assess_severity cfg velocity acceleration angle angularVelocity headScore
          shapeScore impactScore patternScore ∧
      assess_severity cfg velocity acceleration angle angularVelocity headScore
          shapeScore impactScore patternScore ≤ 10) ∧
    (∀ (velocity angle : ℚ) (pid : ℤ) (vNorm torsoAngle patternScore : ℚ)
        (nearFloor : Bool),
      1 ≤ assess_severity_pose velocity angle pid vNorm torsoAngle patternScore nearFloor ∧
      assess_severity_pose velocity angle pid vNorm torsoAngle patternScore nearFloor ≤ 10) := by
  constructor
  · intro cfg velocity acceleration angle angularVelocity headScore shapeScore
      impactScore patternScore
    unfold assess_severity
    exact ⟨le_min (by norm_num) (le_max_left _ _), min_le_left _ _⟩
  · intro velocity angle pid vNorm torsoAngle patternScore nearFloor
    simp only [assess_severity_pose]
    exact ⟨le_max_left _ _, max_le (by norm_num) (min_le_left _ _)⟩

/-- C1 counterexample: assess_severity_pose returns 1.5 — a value inside
[1, 10] that is strictly above its own floor, hence not an integer — so
the claim's "the returned severity is an integer" fails for the pose
scorer. -/
theorem c1_counterexample :
    assess_severity_pose 0 0 0 (2/5) 65 0 false = 3/2 ∧
    (⌊assess_severity_pose 0 0 0 (2/5) 65 0 false⌋ : ℚ) <
      assess_severity_pose 0 0 0 (2/5) 65 0 false := by
  have h : assess_severity_pose 0 0 0 (2/5) 65 0 false = 3/2 := by
    norm_num [assess_severity_pose, min_def, max_def]
  refine ⟨h, ?_⟩
  rw [h]
  norm_num

/-! ## C2: one Verified per raised cycle -/

/-- While severity holds at/above threshold and the window has not yet
elapsed, the AWS emergency machine emits verifying and keeps its state. -/
theorem awsVerifyingStep (threshold verificationTime t0 sev now : ℚ)
    (hsev : threshold ≤ sev) (htime : now - t0 < verificationTime) :
    emergencyStepAws threshold verificationTime ⟨true, t0⟩ sev now =
      (⟨true, t0⟩, some .verifying) := by
  simp [emergencyStepAws, hsev, not_le.mpr htime]

/-- The AWS raised cycle: under sustained at/above-threshold severity, the
frames strictly inside the window each emit verifying with the state kept,
and the first frame whose elapsed time reaches the window emits verified
and resets the state. -/
theorem awsCycle (threshold verificationTime t0 : ℚ) (pre : List (ℚ × ℚ)) (last : ℚ × ℚ)
    (hpre : ∀ p ∈ pre, threshold ≤ p.1 ∧ p.2 - t0 < verificationTime)
    (hsev : threshold ≤ last.1) (htime : verificationTime ≤ last.2 - t0) :
    runAwsEm threshold verificationTime ⟨true, t0⟩ (pre ++ [last]) =
      (List.replicate pre.length (some .verifying) ++ [some .verified], ⟨false, 0⟩) := by
  induction pre with
  | nil =>
    simp [runAwsEm, emergencyStepAws, hsev, htime]
  | cons p pre ih =>
    have hp := hpre p (List.mem_cons_self p pre)
    have hrest : ∀ q ∈ pre, threshold ≤ q.1 ∧ q.2 - t0 < verificationTime :=
      fun q hq => hpre q (List.mem_cons_of_mem p hq)
    have hstep := awsVerifyingStep threshold verificationTime t0 p.1 p.2 hp.1 hp.2
    simp [runAwsEm, hstep, ih hrest, List.replicate_succ]

/-- C2 (amended): in the AWS revision a raised cycle under sustained
at/above-threshold severity emits exactly one verified event, at the first
frame whose elapsed time since the raise reaches the verification window
(verifying on every earlier frame), after which the state returns to
inactive so a later rise is a fresh cycle; in the src revision the
verified branch leaves the emergency state unchanged, so the event repeats
on every later frame of the same cycle. -/
theorem c2_verified_once :
    (∀ (threshold verificationTime t0 : ℚ) (pre : List (ℚ × ℚ)) (last : ℚ × ℚ),
      (∀ p ∈ pre, threshold ≤ p.1 ∧ p.2 - t0 < verificationTime) →
      threshold ≤ last.1 → verificationTime ≤ last.2 - t0 →
      runAwsEm threshold verificationTime ⟨true, t0⟩ (pre ++ [last]) =
        (List.replicate pre.length (some .verifying) ++ [some .verified], ⟨false, 0⟩)) ∧
    (∀ (verificationTime now : ℚ) (es : EmState),
      es.active = true → verificationTime ≤ now - es.start →
      emergencyStepSrc verificationTime es .fall now = (es, some .verified)) := by
  constructor
  · exact fun thr vt t0 pre last hpre hsev htime => awsCycle thr vt t0 pre last hpre hsev htime
  · intro verificationTime now es hact htime
    simp [emergencyStepSrc, hact, htime]

/-- C2 counterexample: in the src revision, two consecutive frames past
the verification window both emit verified and the state never returns to
idle, refuting "exactly one Verified ... never a second time in the same
cycle; after that Verified emission the emergency state returns to Idle". -/
theorem c2_counterexample :
    runSrcEm 5 ⟨true, 0⟩ [(.fall, 5), (.fall, 6)] =
      ([some .verified, some .verified], ⟨true, 0⟩) := by
  norm_num [runSrcEm, emergencyStepSrc]

/-! ## C5: the recovery dwell is measured from the wrong instant -/

/-- C5 (code bug): an emergency raised at t=0 and held through t=3 is
cleared by the single below-threshold frame at t=3.5 — the code compares
the time since the EMERGENCY STARTED (3.5s > 3s) instead of the time the
subject has been normal (0s), contradicting its own comment "Only clear if
they've been normal for at least 3 seconds" — and the re-rise at t=3.6
starts a brand-new cycle. -/
theorem c5_dip_clears_immediately :
    runSrcEm 5 ⟨true, 0⟩
        [(.fall, 1), (.fall, 2), (.fall, 3), (.normal, 7/2), (.fall, 18/5)] =
      ([some .verifying, some .verifying, some .verifying, some .cleared, some .alert],
        ⟨true, 18/5⟩) := by
  norm_num [runSrcEm, emergencyStepSrc]

/-! ## C7: determinism -/

/-- C7: the engine is a pure function of the math primitives, the
configuration and the input sequence: two runs from the fresh state
produce identical frame results and identical final states. -/
theorem c7_determinism :
    ∀ (mp : MathPrims) (cfg : Config) (t0 : ℚ) (inputs : List FrameInput)
      (s1 s2 : EngineState),
      s1 = initEngineState t0 → s2 = initEngineState t0 →
      runEngine mp cfg s1 inputs = runEngine mp cfg s2 inputs := by
  intro mp cfg t0 inputs s1 s2 h1 h2
  rw [h1, h2]

/-- Witness for C7 at a concrete run. -/
theorem c7_witness :
    runEngine refMath defaultConfig (initEngineState 0) [⟨1000, 1/30, []⟩] =
      runEngine refMath defaultConfig (initEngineState 0) [⟨1000, 1/30, []⟩] :=
  c7_determinism refMath defaultConfig 0 [⟨1000, 1/30, []⟩]
    (initEngineState 0) (initEngineState 0) rfl rfl

/-! ## C9: numeric safety of the kinematic computations -/

/-- C9: the torso-length divisor is clamped to at least 1 before the
normalized vertical velocity divides by it (for every primitive bundle,
so in particular whatever hypot returns), and with insufficient history
the velocity/acceleration and the angle computations return the neutral
(0, 0) rather than failing. -/
theorem c9_numeric_safety :
    (∀ (mp : MathPrims) (vx vy : ℚ), 1 ≤ torsoLen mp vx vy) ∧
    (∀ (mp : MathPrims) (st : TrackState) (newPos : ℚ × ℚ) (boxSize : Option (ℚ × ℚ)),
      (appendTrunc 15 st.positions newPos).length < 5 →
      (calculate_velocity mp st newPos boxSize).1 = (0, 0)) ∧
    (∀ st : TrackState, st.headPositions.length < 5 → (calculate_angle st).1 = (0, 0)) := by
  refine ⟨fun mp vx vy => le_max_left _ _, ?_, ?_⟩
  · intro mp st newPos boxSize h
    simp only [calculate_velocity]
    rw [if_pos h]
  · intro st h
    simp only [calculate_angle]
    rw [if_pos h]

/-! ## C3, C6, C10: the temporal pattern machine -/

/-- A horizontal-stage frame whose stillness counter reaches the threshold
emits 2.5 and only increments the counter, leaving the stage horizontal. -/
theorem atpHorizontalEmit (frameCount fallDurationFrames stillFramesNeeded : ℤ)
    (st : PatternState) (vNorm torsoAngle : ℚ) (hs : st.stage = .horizontal)
    (hm : stillFramesNeeded ≤ st.m + 1) :
    analyze_temporal_pattern frameCount fallDurationFrames stillFramesNeeded st vNorm
      torsoAngle = (5/2, { st with m := st.m + 1 }) := by
  simp [analyze_temporal_pattern, hs, hm]

/-- The score is 2.5 exactly when the stage is horizontal and the
incremented stillness counter reaches the threshold. -/
theorem atpScore52 (frameCount fallDurationFrames stillFramesNeeded : ℤ)
    (st : PatternState) (vNorm torsoAngle : ℚ) :
    (analyze_temporal_pattern frameCount fallDurationFrames stillFramesNeeded st vNorm
      torsoAngle).1 = 5/2 ↔ st.stage = .horizontal ∧ stillFramesNeeded ≤ st.m + 1 := by
  obtain ⟨sg, t0, k, m⟩ := st
  cases sg <;>
    simp [analyze_temporal_pattern] <;>
    (try split_ifs) <;>
    (try simp_all) <;>
    (try split_ifs) <;>
    (try simp_all) <;>
    (try norm_num) <;>
    omega

/-- C3 (amended): 2.5 is returned exactly on the horizontal-stage frames
whose stillness counter has reached the threshold — so it is first
returned at the frame the counter reaches the threshold and never before;
but the machine does not reset on emission: the stage stays horizontal
with the counter incremented, so feeding further identical stillness
frames returns 2.5 again on every subsequent frame of the same cycle. -/
theorem c3_stillness_emission :
    ∀ (frameCount fallDurationFrames stillFramesNeeded : ℤ) (st : PatternState)
      (vNorm torsoAngle : ℚ),
      ((analyze_temporal_pattern frameCount fallDurationFrames stillFramesNeeded st vNorm
          torsoAngle).1 = 5/2 ↔ st.stage = .horizontal ∧ stillFramesNeeded ≤ st.m + 1) ∧
      (st.stage = .horizontal → stillFramesNeeded ≤ st.m + 1 →
        analyze_temporal_pattern frameCount fallDurationFrames stillFramesNeeded st vNorm
          torsoAngle = (5/2, { st with m := st.m + 1 })) := by
  intro frameCount fallDurationFrames stillFramesNeeded st vNorm torsoAngle
  exact ⟨atpScore52 _ _ _ _ _ _,
    fun hs hm => atpHorizontalEmit _ _ _ _ _ _ hs hm⟩

/-- C3 counterexample: a full cycle (fast descent, two over-70 frames,
six stillness frames at the 6-frame threshold) first emits 2.5 at frame 9
— and then again at frame 10 on an identical further stillness frame,
with no reset in between, refuting "feeding further identical stillness
frames ... does not cause 2.5 to be returned again". -/
theorem c3_counterexample :
    runPatternSrc 3 6
        [(1, 9/10, 0), (2, 1/2, 80), (3, 1/2, 80), (4, 1/2, 80), (5, 1/2, 80),
         (6, 1/2, 80), (7, 1/2, 80), (8, 1/2, 80), (9, 1/2, 80), (10, 1/2, 80)]
        ⟨.none, 0, 0, 0⟩ =
      ([0, 0, 3/2, 0, 0, 0, 0, 0, 5/2, 5/2], ⟨.horizontal, 1, 2, 7⟩) := by
  norm_num [runPatternSrc, analyze_temporal_pattern] <;> simp

/-- The stage moves only forward (none to descending to horizontal),
stays, or resets to none. -/
def stageForward (a b : Stage) : Prop :=
  b = a ∨ (a = .none ∧ b = .descending) ∨ (a = .descending ∧ b = .horizontal) ∨ b = .none

/-- Every step of the src machine keeps the stage, advances it one step
forward, or resets it to none. -/
theorem atpStageForward (frameCount fallDurationFrames stillFramesNeeded : ℤ)
    (st : PatternState) (vNorm torsoAngle : ℚ) :
    stageForward st.stage
      (analyze_temporal_pattern frameCount fallDurationFrames stillFramesNeeded st vNorm
        torsoAngle).2.stage := by
  obtain ⟨sg, t0, k, m⟩ := st
  cases sg <;>
    simp [analyze_temporal_pattern, stageForward] <;>
    (try split_ifs) <;>
    (try simp_all) <;>
    (try split_ifs) <;>
    (try simp_all)

/-- From Descending, the machine reaches Horizontal exactly when the
angle exceeds 70 now, the frame is within the duration bound, and the
cumulative over-70 counter was already at least 1. -/
theorem atpDescHorizontal (frameCount fallDurationFrames stillFramesNeeded t0 k m : ℤ)
    (vNorm torsoAngle : ℚ) :
    (analyze_temporal_pattern frameCount fallDurationFrames stillFramesNeeded
      ⟨.descending, t0, k, m⟩ vNorm torsoAngle).2.stage = .horizontal ↔
      torsoAngle > 70 ∧ frameCount - t0 ≤ fallDurationFrames ∧ 1 ≤ k := by
  simp [analyze_temporal_pattern] <;>
    (try split_ifs) <;>
    (try simp_all) <;>
    (try split_ifs) <;>
    (try simp_all) <;>
    omega

/-- From Descending, an at-most-70 frame past the duration bound resets
the stage to none. -/
theorem atpDescTimeout (frameCount fallDurationFrames stillFramesNeeded t0 k m : ℤ)
    (vNorm torsoAngle : ℚ) (ha : ¬ torsoAngle > 70)
    (ht : frameCount - t0 > fallDurationFrames) :
    (analyze_temporal_pattern frameCount fallDurationFrames stillFramesNeeded
      ⟨.descending, t0, k, m⟩ vNorm torsoAngle).2.stage = .none := by
  simp [analyze_temporal_pattern, ha, ht] <;>
    (try split_ifs) <;>
    (try simp_all)

/-- C6 (amended): the machine leaves Descending for Horizontal exactly
when the smoothed angle exceeds 70 on the current frame, the frame is
within the duration bound since entering Descending, and at least one
EARLIER frame of the stay already exceeded 70 (the counter k is
cumulative, not consecutive); when the bound has elapsed the stage reverts
to none at the next at-most-70 frame (not at the bound itself); and every
transition is forward or a reset to none. -/
theorem c6_descending_rules :
    ∀ (frameCount fallDurationFrames stillFramesNeeded : ℤ) (st : PatternState)
      (vNorm torsoAngle : ℚ),
      stageForward st.stage
        (analyze_temporal_pattern frameCount fallDurationFrames stillFramesNeeded st vNorm
          torsoAngle).2.stage ∧
      (st.stage = .descending →
        (((analyze_temporal_pattern frameCount fallDurationFrames stillFramesNeeded st
            vNorm torsoAngle).2.stage = .horizontal) ↔
          (torsoAngle > 70 ∧ frameCount - st.t0 ≤ fallDurationFrames ∧ 1 ≤ st.k)) ∧
        (¬ torsoAngle > 70 → frameCount - st.t0 > fallDurationFrames →
          (analyze_temporal_pattern frameCount fallDurationFrames stillFramesNeeded st
            vNorm torsoAngle).2.stage = .none)) := by
  intro frameCount fallDurationFrames stillFramesNeeded st vNorm torsoAngle
  refine ⟨atpStageForward _ _ _ _ _ _, ?_⟩
  intro hs
  obtain ⟨sg, t0, k, m⟩ := st
  have hs' : sg = .descending := hs
  subst hs'
  exact ⟨atpDescHorizontal _ _ _ _ _ _ _ _,
    fun ha ht => atpDescTimeout _ _ _ _ _ _ _ _ ha ht⟩

/-- C6 counterexample: from Descending (entered at frame 0, bound 10), an
over-70 frame, an at-most-70 frame, then another over-70 frame still
inside the bound drives the machine into Horizontal — the two over-70
frames are not consecutive, refuting "exceeded the horizontal threshold
(70°) on at least 2 consecutive frames". -/
theorem c6_counterexample :
    runPatternSrc 10 30 [(1, 1/2, 80), (2, 1/2, 0), (3, 1/2, 80)]
        ⟨.descending, 0, 0, 0⟩ =
      ([0, 0, 3/2], ⟨.horizontal, 0, 2, 0⟩) := by
  norm_num [runPatternSrc, analyze_temporal_pattern] <;> simp

/-- The src machine's score is one of 0, 1.5, 2.5. -/
theorem atpScoreMem (frameCount fallDurationFrames stillFramesNeeded : ℤ)
    (st : PatternState) (vNorm torsoAngle : ℚ) :
    (analyze_temporal_pattern frameCount fallDurationFrames stillFramesNeeded st vNorm
      torsoAngle).1 = 0 ∨
    (analyze_temporal_pattern frameCount fallDurationFrames stillFramesNeeded st vNorm
      torsoAngle).1 = 3/2 ∨
    (analyze_temporal_pattern frameCount fallDurationFrames stillFramesNeeded st vNorm
      torsoAngle).1 = 5/2 := by
  obtain ⟨sg, t0, k, m⟩ := st
  cases sg <;>
    simp [analyze_temporal_pattern] <;>
    (try split_ifs) <;>
    (try simp_all) <;>
    (try split_ifs) <;>
    (try simp_all)

/-- The src machine's score is 1.5 exactly on the frame that confirms the
Descending-to-Horizontal transition. -/
theorem atpScore32 (frameCount fallDurationFrames stillFramesNeeded : ℤ)
    (st : PatternState) (vNorm torsoAngle : ℚ) :
    (analyze_temporal_pattern frameCount fallDurationFrames stillFramesNeeded st vNorm
      torsoAngle).1 = 3/2 ↔
      st.stage = .descending ∧ torsoAngle > 70 ∧
        frameCount - st.t0 ≤ fallDurationFrames ∧ 1 ≤ st.k := by
  obtain ⟨sg, t0, k, m⟩ := st
  have hiff : ((2:ℤ) ≤ k + 1) ↔ (1 ≤ k) := by omega
  cases sg
  case descending =>
    by_cases ha : (70:ℚ) < torsoAngle <;>
    by_cases hw : frameCount - t0 ≤ fallDurationFrames <;>
    by_cases hk : (1:ℤ) ≤ k <;>
      (try simp [analyze_temporal_pattern, hiff, ha, hw, hk])
    all_goals try split_ifs
    all_goals try norm_num
    all_goals try simp
    all_goals try split_ifs
    all_goals try simp_all
    all_goals try norm_num
  all_goals
    simp [analyze_temporal_pattern] <;>
      (try split_ifs) <;>
      (try simp_all) <;>
      (try split_ifs) <;>
      (try simp_all) <;>
      (try norm_num)

/-- The AWS machine's score is 0 or 2.5. -/
theorem awsScoreMem (frameCount fallDurationFrames stillFramesNeeded : ℤ)
    (st : PatternState) (vNorm torsoAngle : ℚ) :
    (analyze_temporal_patternAws frameCount fallDurationFrames stillFramesNeeded st vNorm
      torsoAngle).1 = 0 ∨
    (analyze_temporal_patternAws frameCount fallDurationFrames stillFramesNeeded st vNorm
      torsoAngle).1 = 5/2 := by
  obtain ⟨sg, t0, k, m⟩ := st
  cases sg <;>
    simp [analyze_temporal_patternAws] <;>
    (try split_ifs) <;>
    (try simp_all)

/-- The AWS machine's score is 2.5 exactly on the horizontal-stage frames
whose incremented stillness counter reaches the threshold. -/
theorem awsScore52 (frameCount fallDurationFrames stillFramesNeeded : ℤ)
    (st : PatternState) (vNorm torsoAngle : ℚ) :
    (analyze_temporal_patternAws frameCount fallDurationFrames stillFramesNeeded st vNorm
      torsoAngle).1 = 5/2 ↔ st.stage = .horizontal ∧ stillFramesNeeded ≤ st.m + 1 := by
  obtain ⟨sg, t0, k, m⟩ := st
  cases sg <;>
    simp [analyze_temporal_patternAws] <;>
    (try split_ifs) <;>
    (try simp_all) <;>
    (try norm_num) <;>
    omega

/-- C10: the src machine's score is always 0, 1.5 or 2.5; it is 1.5
exactly on a frame that moves Descending into Horizontal; the AWS
machine's score is always 0 or 2.5, and its Descending-to-Horizontal
transition frame returns 0. -/
theorem c10_pattern_score_range :
    ∀ (frameCount fallDurationFrames stillFramesNeeded : ℤ) (st : PatternState)
      (vNorm torsoAngle : ℚ),
      ((analyze_temporal_pattern frameCount fallDurationFrames stillFramesNeeded st vNorm
          torsoAngle).1 = 0 ∨
        (analyze_temporal_pattern frameCount fallDurationFrames stillFramesNeeded st vNorm
          torsoAngle).1 = 3/2 ∨
        (analyze_temporal_pattern frameCount fallDurationFrames stillFramesNeeded st vNorm
          torsoAngle).1 = 5/2) ∧
      ((analyze_temporal_pattern frameCount fallDurationFrames stillFramesNeeded st vNorm
          torsoAngle).1 = 3/2 ↔
        (st.stage = .descending ∧
          (analyze_temporal_pattern frameCount fallDurationFrames stillFramesNeeded st
            vNorm torsoAngle).2.stage = .horizontal)) ∧
      ((analyze_temporal_patternAws frameCount fallDurationFrames stillFramesNeeded st
          vNorm torsoAngle).1 = 0 ∨
        (analyze_temporal_patternAws frameCount fallDurationFrames stillFramesNeeded st
          vNorm torsoAngle).1 = 5/2) ∧
      (st.stage = .descending →
        (analyze_temporal_patternAws frameCount fallDurationFrames stillFramesNeeded st
          vNorm torsoAngle).2.stage = .horizontal →
        (analyze_temporal_patternAws frameCount fallDurationFrames stillFramesNeeded st
          vNorm torsoAngle).1 = 0) := by
  intro frameCount fallDurationFrames stillFramesNeeded st vNorm torsoAngle
  refine ⟨atpScoreMem _ _ _ _ _ _, ?_, awsScoreMem _ _ _ _ _ _, ?_⟩
  · constructor
    · intro h32
      have hc := (atpScore32 frameCount fallDurationFrames stillFramesNeeded st vNorm
        torsoAngle).mp h32
      refine ⟨hc.1, ?_⟩
      obtain ⟨sg, t0, k, m⟩ := st
      have hs' : sg = .descending := hc.1
      subst hs'
      exact (atpDescHorizontal _ _ _ _ _ _ _ _).mpr hc.2
    · rintro ⟨hs, hh⟩
      obtain ⟨sg, t0, k, m⟩ := st
      have hs' : sg = .descending := hs
      subst hs'
      exact (atpScore32 _ _ _ _ _ _).mpr
        ⟨rfl, (atpDescHorizontal _ _ _ _ _ _ _ _).mp hh⟩
  · intro hs hh
    rcases awsScoreMem frameCount fallDurationFrames stillFramesNeeded st vNorm
      torsoAngle with h0 | h52
    · exact h0
    · exfalso
      have hc := (awsScore52 frameCount fallDurationFrames stillFramesNeeded st vNorm
        torsoAngle).mp h52
      rw [hs] at hc
      exact absurd hc.1 (by simp)

/-! ## C8: history buffers stay within capacity -/

/-- The capacity invariant of one track's history buffers: positions,
velocities, accelerations, head positions and angles at 15, aspect ratios
at 10, hip midpoints at 20; the velocity and acceleration histories are
appended and truncated in lockstep, so their lengths agree. -/
def TrackInv (st : TrackState) : Prop :=
  st.positions.length ≤ 15 ∧ st.velocities.length ≤ 15 ∧ st.accelerations.length ≤ 15 ∧
  st.velocities.length = st.accelerations.length ∧ st.headPositions.length ≤ 15 ∧
  st.angles.length ≤ 15 ∧ st.aspectRatios.length ≤ 10 ∧ st.hips.length ≤ 20

/-- The invariant through a fallible step: a raised exception processes no
state. -/
def TrackInvE : Except Unit (Detection × TrackState) → Prop
  | .error _ => True
  | .ok r => TrackInv r.2

theorem takeLast_length {α : Type} (n : ℕ) (l : List α) :
    (takeLast n l).length = l.length - (l.length - n) := by
  simp [takeLast]

theorem truncTo_length {α : Type} (cap : ℕ) (l : List α) :
    (truncTo cap l).length = min cap l.length := by
  unfold truncTo
  split <;> simp [takeLast_length] <;> omega

theorem appendTrunc_length {α : Type} (cap : ℕ) (l : List α) (x : α) :
    (appendTrunc cap l x).length = min cap (l.length + 1) := by
  simp [appendTrunc, truncTo_length]

theorem appendTrunc_length_le {α : Type} (cap : ℕ) (l : List α) (x : α)
    (h : l.length ≤ cap) : (appendTrunc cap l x).length ≤ cap := by
  simp [appendTrunc_length]

theorem appendTrunc_suffix {α : Type} (cap : ℕ) (l : List α) (x : α) :
    appendTrunc cap l x <:+ l ++ [x] := by
  unfold appendTrunc truncTo takeLast
  split
  · exact List.drop_suffix _ _
  · exact List.suffix_rfl

theorem inv_pose (mp : MathPrims) (frameHeight : ℚ) (obs : TrackObs) (st : TrackState)
    (h : TrackInv st) : TrackInv (poseBlock mp frameHeight obs st).2 := by
  obtain ⟨h1, h2, h3, h4, h5, h6, h7, h8⟩ := h
  simp only [poseBlock]
  rcases hk : obs.kpts with _ | k
  · exact ⟨h1, h2, h3, h4, h5, h6, h7, h8⟩
  · by_cases hv : kptsValid k <;>
      simp only [hv, if_true, if_false, reduceIte]
    · exact ⟨h1, h2, h3, h4, h5, h6, h7, by simp [truncTo_length]⟩
    · exact ⟨h1, h2, h3, h4, h5, h6, h7, h8⟩

theorem inv_head (st : TrackState) (y : ℚ) (h : TrackInv st) :
    TrackInv { st with headPositions := appendTrunc 15 st.headPositions y } := by
  obtain ⟨h1, h2, h3, h4, h5, h6, h7, h8⟩ := h
  exact ⟨h1, h2, h3, h4, appendTrunc_length_le _ _ _ h5, h6, h7, h8⟩

theorem inv_ema (st : TrackState) (a b : ℚ) (h : TrackInv st) :
    TrackInv { st with emaVnorm := some a, emaAngle := some b } := h

theorem inv_calcvel (mp : MathPrims) (st : TrackState) (newPos : ℚ × ℚ)
    (boxSize : Option (ℚ × ℚ)) (h : TrackInv st) :
    TrackInv (calculate_velocity mp st newPos boxSize).2 := by
  obtain ⟨h1, h2, h3, h4, h5, h6, h7, h8⟩ := h
  simp only [calculate_velocity]
  split_ifs with hl hv
  · exact ⟨by simp [appendTrunc_length], h2, h3, h4, h5, h6, h7, h8⟩
  · refine ⟨appendTrunc_length_le _ _ _ h1, ?_, ?_, ?_, h5, h6, h7, h8⟩ <;>
      simp only [takeLast_length, List.length_append, List.length_cons,
        List.length_nil] <;>
      omega
  · simp only [not_lt, List.length_append, List.length_cons, List.length_nil] at hv
    refine ⟨appendTrunc_length_le _ _ _ h1, ?_, ?_, ?_, h5, h6, h7, h8⟩ <;>
      simp only [List.length_append, List.length_cons, List.length_nil] <;>
      omega

theorem inv_calcangle (st : TrackState) (h : TrackInv st) :
    TrackInv (calculate_angle st).2 := by
  obtain ⟨h1, h2, h3, h4, h5, h6, h7, h8⟩ := h
  simp only [calculate_angle]
  split_ifs <;>
    first
      | exact ⟨h1, h2, h3, h4, h5, h6, h7, h8⟩
      | exact ⟨h1, h2, h3, h4, h5, appendTrunc_length_le _ _ _ h6, h7, h8⟩

theorem inv_shape (st : TrackState) (width height : ℚ) (h : TrackInv st) :
    TrackInv (detect_body_shape_change st width height).2 := by
  obtain ⟨h1, h2, h3, h4, h5, h6, h7, h8⟩ := h
  simp only [detect_body_shape_change]
  split_ifs <;>
    exact ⟨h1, h2, h3, h4, h5, h6, appendTrunc_length_le _ _ _ h7, h8⟩

theorem inv_impact_ok (cfg : Config) (st : TrackState) (cv ah q : ℚ) (st' : TrackState)
    (h : TrackInv st) (he : detect_impact cfg st cv ah = .ok (q, st')) : TrackInv st' := by
  simp only [detect_impact] at he
  repeat' split at he
  all_goals simp only [Except.ok.injEq, Prod.mk.injEq, reduceCtorEq] at he
  all_goals obtain ⟨-, rfl⟩ := he
  all_goals exact h

theorem inv_pattern_ok (frameCount fallDurationFrames stillFramesNeeded : ℤ)
    (st : TrackState) (v a q : ℚ) (st' : TrackState) (h : TrackInv st)
    (he : analyze_temporal_pattern_entry frameCount fallDurationFrames stillFramesNeeded
      st v a = .ok (q, st')) : TrackInv st' := by
  simp only [analyze_temporal_pattern_entry] at he
  repeat' split at he
  all_goals simp only [Except.ok.injEq, Prod.mk.injEq, reduceCtorEq] at he
  all_goals obtain ⟨-, rfl⟩ := he
  all_goals exact h

/-- C8: the append-then-evict update pattern keeps every buffer within
its capacity with the oldest entries evicted first and the stored order a
suffix of the arrival order; and one whole per-track step preserves the
capacity invariant of all seven history buffers. -/
theorem c8_history_bounds :
    (∀ (cap : ℕ) (l : List ℚ) (x : ℚ),
      (l.length ≤ cap → (appendTrunc cap l x).length ≤ cap) ∧
      appendTrunc cap l x <:+ l ++ [x]) ∧
    (∀ (mp : MathPrims) (cfg : Config)
      (frameCount fallDurationFrames stillFramesNeeded : ℤ) (frameHeight : ℚ)
      (pid : ℤ) (obs : TrackObs) (st : TrackState),
      TrackInv st →
      TrackInvE (stepTrack mp cfg frameCount fallDurationFrames stillFramesNeeded
        frameHeight pid obs st)) := by
  constructor
  · exact fun cap l x =>
      ⟨fun h => appendTrunc_length_le cap l x h, appendTrunc_suffix cap l x⟩
  · intro mp cfg frameCount fallDurationFrames stillFramesNeeded frameHeight pid obs st h
    simp only [stepTrack]
    split
    · trivial
    · rename_i impactScore0 st7 heq
      split
      · trivial
      · rename_i patternScore st8 heq2
        exact inv_pattern_ok _ _ _ _ _ _ _ _
          (inv_impact_ok _ _ _ _ _ _
            (inv_shape _ _ _ (inv_calcangle _ (inv_calcvel _ _ _ _
              (inv_ema _ _ _ (inv_head _ _ (inv_pose _ _ _ _ h)))))) heq) heq2

/-! ## C4: the static hard floor -/

/-- C4 (amended, first half as claimed): whenever the velocity handed to
assess_severity is below 1 and fewer than 3 strong indicators are
counted, the returned severity is exactly 1, whatever every other
contribution is. -/
theorem c4_static_guard :
    ∀ (cfg : Config) (velocity acceleration angle angularVelocity headScore shapeScore
        impactScore patternScore : ℚ),
      velocity < 1 →
      strongIndicators cfg velocity angle angularVelocity headScore shapeScore
        impactScore patternScore < 3 →
      assess_severity cfg velocity acceleration angle angularVelocity headScore
        shapeScore impactScore patternScore = 1 := by
  intro cfg velocity acceleration angle angularVelocity headScore shapeScore
    impactScore patternScore h1 h2
  simp only [assess_severity, assess_severity_raw]
  rw [if_pos ⟨h1, h2⟩]
  decide

/-- Witness for C4 at the all-zero input. -/
theorem c4_witness :
    assess_severity defaultConfig 0 0 0 0 0 0 0 0 = 1 :=
  c4_static_guard defaultConfig 0 0 0 0 0 0 0 0 (by norm_num)
    (by norm_num [strongIndicators, defaultConfig])

/-- The hip-midpoint height of the synthetic slow-sink track: it sinks by
6/5 pixels per frame, 3/20 of the 8-pixel torso. -/
def hipY (k : ℤ) : ℚ := 108 + (6/5) * ((k : ℚ) - 1)

/-- The synthetic slow-sink observation for frame k: a fixed centre
(100, 300), width 100 through frame 7 and 240 after (the silhouette
widens while the centre stays put), a vertical 8-pixel torso whose hips
sink by 6/5 pixels per frame. -/
def c4Obs (k : ℤ) : TrackObs :=
  { pid := some 1,
    x1 := if k ≤ 7 then 50 else -20,
    y1 := 200,
    x2 := if k ≤ 7 then 150 else 220,
    y2 := 400,
    kpts := some ⟨(100, hipY k - 8), (100, hipY k - 8), (100, hipY k), (100, hipY k)⟩ }

/-- Ten frames of the slow-sink track at a stable 30 fps. -/
def c4Inputs : List FrameInput :=
  [⟨1000, 1/30, [c4Obs 1]⟩, ⟨1000, 1/15, [c4Obs 2]⟩, ⟨1000, 1/10, [c4Obs 3]⟩,
   ⟨1000, 2/15, [c4Obs 4]⟩, ⟨1000, 1/6, [c4Obs 5]⟩, ⟨1000, 1/5, [c4Obs 6]⟩,
   ⟨1000, 7/30, [c4Obs 7]⟩, ⟨1000, 4/15, [c4Obs 8]⟩, ⟨1000, 3/10, [c4Obs 9]⟩,
   ⟨1000, 1/3, [c4Obs 10]⟩]

/-- The normalized vertical velocity of the slow-sink track on frames
2 to 10, exactly as the engine computes it: hip-height delta over the
clamped torso length. -/
def c4VNorms : List ℚ :=
  (List.range' 2 9).map (fun k => (hipY k - hipY ((k : ℤ) - 1)) / torsoLen refMath 0 8)

/-- Constructor disequality of the motion flags, as a rewrite rule. -/
theorem motionMovImp : (Motion.moving = Motion.impact) = False := by simp

/-- Constructor disequality of the motion flags, reversed. -/
theorem motionImpMov : (Motion.impact = Motion.moving) = False := by simp

/-- Constructor disequality of the pattern stages. -/
theorem stageNoneDesc : (Stage.none = Stage.descending) = False := by simp

/-- Constructor disequality of the pattern stages. -/
theorem stageNoneHor : (Stage.none = Stage.horizontal) = False := by simp

/-- Constructor disequality of the pattern stages. -/
theorem stageDescNone : (Stage.descending = Stage.none) = False := by simp

/-- Constructor disequality of the pattern stages. -/
theorem stageDescHor : (Stage.descending = Stage.horizontal) = False := by simp

/-- Constructor disequality of the pattern stages. -/
theorem stageHorNone : (Stage.horizontal = Stage.none) = False := by simp

/-- Constructor disequality of the pattern stages. -/
theorem stageHorDesc : (Stage.horizontal = Stage.descending) = False := by simp

set_option maxHeartbeats 1000000 in
/-- Frame 1 of the slow-sink run, evaluated in closed form. -/
theorem c4Step1 :
    process_frame refMath defaultConfig (initEngineState 0)
        ⟨1000, (1/30 : ℚ), [c4Obs 1]⟩ =
      .ok (⟨1, [⟨1, (50, 200, 150, 400), (100, 300), (0 : ℚ), 0, 0, 0, 0, (0 : ℚ), 0, 0, 1⟩], (1 : ℚ), Option.none⟩,
        ⟨(1 : ℤ), 30, (1/30 : ℚ), 24, 30, [(1, ⟨[((100 : ℚ), (300 : ℚ))], [], [], some ((100 : ℚ), (200 : ℚ)), [(200 : ℚ)], [], [((100 : ℚ), (108 : ℚ))], [(1/2 : ℚ)], .moving, some (.stageD ⟨.none, 0, 0, 0⟩), some (0 : ℚ), some (0 : ℚ)⟩)], (1 : ℚ), ⟨false, 0⟩, (1 : ℤ), 1⟩):= by
  norm_num only [process_frame, processTracks, stepTrack, poseBlock, kptsValid, torsoLen,
    refMath, ema, calculate_velocity, velocityScalars, calculate_angle,
    detect_head_downward_motion, detect_body_shape_change, detect_impact,
    analyze_temporal_pattern_entry, analyze_temporal_pattern, assess_severity,
    assess_severity_raw, strongIndicators, personStatus, emergencyStepSrc, lookupTrack,
    insertTrack, TrackState.empty, initEngineState, defaultConfig, pytrunc, meanQ, medianQ,
    sortQ, insertSorted, takeLast, truncTo, appendTrunc, maxListQ, c4Obs, hipY,
    motionMovImp, motionImpMov, stageNoneDesc, stageNoneHor, stageDescNone, stageDescHor,
    stageHorNone, stageHorDesc, if_false, if_true,
    List.range', List.length_cons, List.length_nil, List.reverse_cons, List.reverse_nil,
    List.cons_append, List.nil_append, List.append_nil,
    List.filterMap_cons, List.filterMap_nil, List.getD_cons_zero, List.getD_cons_succ,
    List.getD_nil, Option.getD_some, Option.getD_none,
    abs_zero, abs_neg, ite_true, ite_false,
    and_self, and_true, true_and, and_false, false_and, not_true, not_false_iff,
    ne_eq, eq_self_iff_true, List.foldr_cons, List.foldr_nil, List.cons_ne_nil,
    List.cons.injEq, List.map_cons, List.map_nil, List.all_cons, List.all_nil,
    List.drop_succ_cons, List.drop_nil, List.drop_zero,
    List.take_succ_cons, List.take_nil, List.take_zero,
    Except.ok.injEq, Prod.mk.injEq] <;>
    (try simp) <;> (try norm_num [personStatus, min_def, max_def]) <;> (try simp) <;>
    (try norm_num) <;> (try simp) <;> (try norm_num [personStatus]) <;> (try simp)

set_option maxHeartbeats 1000000 in
/-- Frame 2 of the slow-sink run, evaluated in closed form. -/
theorem c4Step2 :
    process_frame refMath defaultConfig (⟨(1 : ℤ), 30, (1/30 : ℚ), 24, 30, [(1, ⟨[((100 : ℚ), (300 : ℚ))], [], [], some ((100 : ℚ), (200 : ℚ)), [(200 : ℚ)], [], [((100 : ℚ), (108 : ℚ))], [(1/2 : ℚ)], .moving, some (.stageD ⟨.none, 0, 0, 0⟩), some (0 : ℚ), some (0 : ℚ)⟩)], (1 : ℚ), ⟨false, 0⟩, (1 : ℤ), 1⟩)
        ⟨1000, (1/15 : ℚ), [c4Obs 2]⟩ =
      .ok (⟨1, [⟨1, (50, 200, 150, 400), (100, 300), (3/8 : ℚ), 0, 0, 0, 0, (0 : ℚ), 0, 0, 1⟩], (1 : ℚ), Option.none⟩,
        ⟨(2 : ℤ), 30, (1/15 : ℚ), 24, 30, [(1, ⟨[((100 : ℚ), (300 : ℚ)), ((100 : ℚ), (300 : ℚ))], [], [], some ((100 : ℚ), (200 : ℚ)), [(200 : ℚ), (200 : ℚ)], [], [((100 : ℚ), (108 : ℚ)), ((100 : ℚ), (546/5 : ℚ))], [(1/2 : ℚ), (1/2 : ℚ)], .moving, some (.stageD ⟨.none, 0, 0, 0⟩), some (3/80 : ℚ), some (0 : ℚ)⟩)], (1 : ℚ), ⟨false, 0⟩, (2 : ℤ), 1⟩):= by
  norm_num only [process_frame, processTracks, stepTrack, poseBlock, kptsValid, torsoLen,
    refMath, ema, calculate_velocity, velocityScalars, calculate_angle,
    detect_head_downward_motion, detect_body_shape_change, detect_impact,
    analyze_temporal_pattern_entry, analyze_temporal_pattern, assess_severity,
    assess_severity_raw, strongIndicators, personStatus, emergencyStepSrc, lookupTrack,
    insertTrack, TrackState.empty, initEngineState, defaultConfig, pytrunc, meanQ, medianQ,
    sortQ, insertSorted, takeLast, truncTo, appendTrunc, maxListQ, c4Obs, hipY,
    motionMovImp, motionImpMov, stageNoneDesc, stageNoneHor, stageDescNone, stageDescHor,
    stageHorNone, stageHorDesc, if_false, if_true,
    List.range', List.length_cons, List.length_nil, List.reverse_cons, List.reverse_nil,
    List.cons_append, List.nil_append, List.append_nil,
    List.filterMap_cons, List.filterMap_nil, List.getD_cons_zero, List.getD_cons_succ,
    List.getD_nil, Option.getD_some, Option.getD_none,
    abs_zero, abs_neg, ite_true, ite_false,
    and_self, and_true, true_and, and_false, false_and, not_true, not_false_iff,
    ne_eq, eq_self_iff_true, List.foldr_cons, List.foldr_nil, List.cons_ne_nil,
    List.cons.injEq, List.map_cons, List.map_nil, List.all_cons, List.all_nil,
    List.drop_succ_cons, List.drop_nil, List.drop_zero,
    List.take_succ_cons, List.take_nil, List.take_zero,
    Except.ok.injEq, Prod.mk.injEq] <;>
    (try simp) <;> (try norm_num [personStatus, min_def, max_def]) <;> (try simp) <;>
    (try norm_num) <;> (try simp) <;> (try norm_num [personStatus]) <;> (try simp)

set_option maxHeartbeats 1000000 in
/-- Frame 3 of the slow-sink run, evaluated in closed form. -/
theorem c4Step3 :
    process_frame refMath defaultConfig (⟨(2 : ℤ), 30, (1/15 : ℚ), 24, 30, [(1, ⟨[((100 : ℚ), (300 : ℚ)), ((100 : ℚ), (300 : ℚ))], [], [], some ((100 : ℚ), (200 : ℚ)), [(200 : ℚ), (200 : ℚ)], [], [((100 : ℚ), (108 : ℚ)), ((100 : ℚ), (546/5 : ℚ))], [(1/2 : ℚ), (1/2 : ℚ)], .moving, some (.stageD ⟨.none, 0, 0, 0⟩), some (3/80 : ℚ), some (0 : ℚ)⟩)], (1 : ℚ), ⟨false, 0⟩, (2 : ℤ), 1⟩)
        ⟨1000, (1/10 : ℚ), [c4Obs 3]⟩ =
      .ok (⟨1, [⟨1, (50, 200, 150, 400), (100, 300), (21/32 : ℚ), 0, 0, 0, 0, (0 : ℚ), 0, 0, 1⟩], (1 : ℚ), Option.none⟩,
        ⟨(3 : ℤ), 30, (1/10 : ℚ), 24, 30, [(1, ⟨[((100 : ℚ), (300 : ℚ)), ((100 : ℚ), (300 : ℚ)), ((100 : ℚ), (300 : ℚ))], [], [], some ((100 : ℚ), (200 : ℚ)), [(200 : ℚ), (200 : ℚ), (200 : ℚ)], [], [((100 : ℚ), (108 : ℚ)), ((100 : ℚ), (546/5 : ℚ)), ((100 : ℚ), (552/5 : ℚ))], [(1/2 : ℚ), (1/2 : ℚ), (1/2 : ℚ)], .moving, some (.stageD ⟨.none, 0, 0, 0⟩), some (21/320 : ℚ), some (0 : ℚ)⟩)], (1 : ℚ), ⟨false, 0⟩, (3 : ℤ), 1⟩):= by
  norm_num only [process_frame, processTracks, stepTrack, poseBlock, kptsValid, torsoLen,
    refMath, ema, calculate_velocity, velocityScalars, calculate_angle,
    detect_head_downward_motion, detect_body_shape_change, detect_impact,
    analyze_temporal_pattern_entry, analyze_temporal_pattern, assess_severity,
    assess_severity_raw, strongIndicators, personStatus, emergencyStepSrc, lookupTrack,
    insertTrack, TrackState.empty, initEngineState, defaultConfig, pytrunc, meanQ, medianQ,
    sortQ, insertSorted, takeLast, truncTo, appendTrunc, maxListQ, c4Obs, hipY,
    motionMovImp, motionImpMov, stageNoneDesc, stageNoneHor, stageDescNone, stageDescHor,
    stageHorNone, stageHorDesc, if_false, if_true,
    List.range', List.length_cons, List.length_nil, List.reverse_cons, List.reverse_nil,
    List.cons_append, List.nil_append, List.append_nil,
    List.filterMap_cons, List.filterMap_nil, List.getD_cons_zero, List.getD_cons_succ,
    List.getD_nil, Option.getD_some, Option.getD_none,
    abs_zero, abs_neg, ite_true, ite_false,
    and_self, and_true, true_and, and_false, false_and, not_true, not_false_iff,
    ne_eq, eq_self_iff_true, List.foldr_cons, List.foldr_nil, List.cons_ne_nil,
    List.cons.injEq, List.map_cons, List.map_nil, List.all_cons, List.all_nil,
    List.drop_succ_cons, List.drop_nil, List.drop_zero,
    List.take_succ_cons, List.take_nil, List.take_zero,
    Except.ok.injEq, Prod.mk.injEq] <;>
    (try simp) <;> (try norm_num [personStatus, min_def, max_def]) <;> (try simp) <;>
    (try norm_num) <;> (try simp) <;> (try norm_num [personStatus]) <;> (try simp)

set_option maxHeartbeats 1000000 in
/-- Frame 4 of the slow-sink run, evaluated in closed form. -/
theorem c4Step4 :
    process_frame refMath defaultConfig (⟨(3 : ℤ), 30, (1/10 : ℚ), 24, 30, [(1, ⟨[((100 : ℚ), (300 : ℚ)), ((100 : ℚ), (300 : ℚ)), ((100 : ℚ), (300 : ℚ))], [], [], some ((100 : ℚ), (200 : ℚ)), [(200 : ℚ), (200 : ℚ), (200 : ℚ)], [], [((100 : ℚ), (108 : ℚ)), ((100 : ℚ), (546/5 : ℚ)), ((100 : ℚ), (552/5 : ℚ))], [(1/2 : ℚ), (1/2 : ℚ), (1/2 : ℚ)], .moving, some (.stageD ⟨.none, 0, 0, 0⟩), some (21/320 : ℚ), some (0 : ℚ)⟩)], (1 : ℚ), ⟨false, 0⟩, (3 : ℤ), 1⟩)
        ⟨1000, (2/15 : ℚ), [c4Obs 4]⟩ =
      .ok (⟨1, [⟨1, (50, 200, 150, 400), (100, 300), (111/128 : ℚ), 0, 0, 0, 0, (0 : ℚ), 0, 0, 1⟩], (1 : ℚ), Option.none⟩,
        ⟨(4 : ℤ), 30, (2/15 : ℚ), 24, 30, [(1, ⟨[((100 : ℚ), (300 : ℚ)), ((100 : ℚ), (300 : ℚ)), ((100 : ℚ), (300 : ℚ)), ((100 : ℚ), (300 : ℚ))], [], [], some ((100 : ℚ), (200 : ℚ)), [(200 : ℚ), (200 : ℚ), (200 : ℚ), (200 : ℚ)], [], [((100 : ℚ), (108 : ℚ)), ((100 : ℚ), (546/5 : ℚ)), ((100 : ℚ), (552/5 : ℚ)), ((100 : ℚ), (558/5 : ℚ))], [(1/2 : ℚ), (1/2 : ℚ), (1/2 : ℚ), (1/2 : ℚ)], .moving, some (.stageD ⟨.none, 0, 0, 0⟩), some (111/1280 : ℚ), some (0 : ℚ)⟩)], (1 : ℚ), ⟨false, 0⟩, (4 : ℤ), 1⟩):= by
  norm_num only [process_frame, processTracks, stepTrack, poseBlock, kptsValid, torsoLen,
    refMath, ema, calculate_velocity, velocityScalars, calculate_angle,
    detect_head_downward_motion, detect_body_shape_change, detect_impact,
    analyze_temporal_pattern_entry, analyze_temporal_pattern, assess_severity,
    assess_severity_raw, strongIndicators, personStatus, emergencyStepSrc, lookupTrack,
    insertTrack, TrackState.empty, initEngineState, defaultConfig, pytrunc, meanQ, medianQ,
    sortQ, insertSorted, takeLast, truncTo, appendTrunc, maxListQ, c4Obs, hipY,
    motionMovImp, motionImpMov, stageNoneDesc, stageNoneHor, stageDescNone, stageDescHor,
    stageHorNone, stageHorDesc, if_false, if_true,
    List.range', List.length_cons, List.length_nil, List.reverse_cons, List.reverse_nil,
    List.cons_append, List.nil_append, List.append_nil,
    List.filterMap_cons, List.filterMap_nil, List.getD_cons_zero, List.getD_cons_succ,
    List.getD_nil, Option.getD_some, Option.getD_none,
    abs_zero, abs_neg, ite_true, ite_false,
    and_self, and_true, true_and, and_false, false_and, not_true, not_false_iff,
    ne_eq, eq_self_iff_true, List.foldr_cons, List.foldr_nil, List.cons_ne_nil,
    List.cons.injEq, List.map_cons, List.map_nil, List.all_cons, List.all_nil,
    List.drop_succ_cons, List.drop_nil, List.drop_zero,
    List.take_succ_cons, List.take_nil, List.take_zero,
    Except.ok.injEq, Prod.mk.injEq] <;>
    (try simp) <;> (try norm_num [personStatus, min_def, max_def]) <;> (try simp) <;>
    (try norm_num) <;> (try simp) <;> (try norm_num [personStatus]) <;> (try simp)

set_option maxHeartbeats 1000000 in
/-- Frame 5 of the slow-sink run, evaluated in closed form. -/
theorem c4Step5 :
    process_frame refMath defaultConfig (⟨(4 : ℤ), 30, (2/15 : ℚ), 24, 30, [(1, ⟨[((100 : ℚ), (300 : ℚ)), ((100 : ℚ), (300 : ℚ)), ((100 : ℚ), (300 : ℚ)), ((100 : ℚ), (300 : ℚ))], [], [], some ((100 : ℚ), (200 : ℚ)), [(200 : ℚ), (200 : ℚ), (200 : ℚ), (200 : ℚ)], [], [((100 : ℚ), (108 : ℚ)), ((100 : ℚ), (546/5 : ℚ)), ((100 : ℚ), (552/5 : ℚ)), ((100 : ℚ), (558/5 : ℚ))], [(1/2 : ℚ), (1/2 : ℚ), (1/2 : ℚ), (1/2 : ℚ)], .moving, some (.stageD ⟨.none, 0, 0, 0⟩), some (111/1280 : ℚ), some (0 : ℚ)⟩)], (1 : ℚ), ⟨false, 0⟩, (4 : ℤ), 1⟩)
        ⟨1000, (1/6 : ℚ), [c4Obs 5]⟩ =
      .ok (⟨1, [⟨1, (50, 200, 150, 400), (100, 300), (525/512 : ℚ), 0, 0, 0, 0, (0 : ℚ), 0, 0, 1⟩], (1 : ℚ), Option.none⟩,
        ⟨(5 : ℤ), 30, (1/6 : ℚ), 24, 30, [(1, ⟨[((100 : ℚ), (300 : ℚ)), ((100 : ℚ), (300 : ℚ)), ((100 : ℚ), (300 : ℚ)), ((100 : ℚ), (300 : ℚ)), ((100 : ℚ), (300 : ℚ))], [(0 : ℚ)], [(0 : ℚ)], some ((100 : ℚ), (200 : ℚ)), [(200 : ℚ), (200 : ℚ), (200 : ℚ), (200 : ℚ), (200 : ℚ)], [], [((100 : ℚ), (108 : ℚ)), ((100 : ℚ), (546/5 : ℚ)), ((100 : ℚ), (552/5 : ℚ)), ((100 : ℚ), (558/5 : ℚ)), ((100 : ℚ), (564/5 : ℚ))], [(1/2 : ℚ), (1/2 : ℚ), (1/2 : ℚ), (1/2 : ℚ), (1/2 : ℚ)], .moving, some (.stageD ⟨.none, 0, 0, 0⟩), some (105/1024 : ℚ), some (0 : ℚ)⟩)], (1 : ℚ), ⟨false, 0⟩, (5 : ℤ), 1⟩):= by
  norm_num only [process_frame, processTracks, stepTrack, poseBlock, kptsValid, torsoLen,
    refMath, ema, calculate_velocity, velocityScalars, calculate_angle,
    detect_head_downward_motion, detect_body_shape_change, detect_impact,
    analyze_temporal_pattern_entry, analyze_temporal_pattern, assess_severity,
    assess_severity_raw, strongIndicators, personStatus, emergencyStepSrc, lookupTrack,
    insertTrack, TrackState.empty, initEngineState, defaultConfig, pytrunc, meanQ, medianQ,
    sortQ, insertSorted, takeLast, truncTo, appendTrunc, maxListQ, c4Obs, hipY,
    motionMovImp, motionImpMov, stageNoneDesc, stageNoneHor, stageDescNone, stageDescHor,
    stageHorNone, stageHorDesc, if_false, if_true,
    List.range', List.length_cons, List.length_nil, List.reverse_cons, List.reverse_nil,
    List.cons_append, List.nil_append, List.append_nil,
    List.filterMap_cons, List.filterMap_nil, List.getD_cons_zero, List.getD_cons_succ,
    List.getD_nil, Option.getD_some, Option.getD_none,
    abs_zero, abs_neg, ite_true, ite_false,
    and_self, and_true, true_and, and_false, false_and, not_true, not_false_iff,
    ne_eq, eq_self_iff_true, List.foldr_cons, List.foldr_nil, List.cons_ne_nil,
    List.cons.injEq, List.map_cons, List.map_nil, List.all_cons, List.all_nil,
    List.drop_succ_cons, List.drop_nil, List.drop_zero,
    List.take_succ_cons, List.take_nil, List.take_zero,
    Except.ok.injEq, Prod.mk.injEq] <;>
    (try simp) <;> (try norm_num [personStatus, min_def, max_def]) <;> (try simp) <;>
    (try norm_num) <;> (try simp) <;> (try norm_num [personStatus]) <;> (try simp)

set_option maxHeartbeats 1000000 in
/-- Frame 6 of the slow-sink run, evaluated in closed form. -/
theorem c4Step6 :
    process_frame refMath defaultConfig (⟨(5 : ℤ), 30, (1/6 : ℚ), 24, 30, [(1, ⟨[((100 : ℚ), (300 : ℚ)), ((100 : ℚ), (300 : ℚ)), ((100 : ℚ), (300 : ℚ)), ((100 : ℚ), (300 : ℚ)), ((100 : ℚ), (300 : ℚ))], [(0 : ℚ)], [(0 : ℚ)], some ((100 : ℚ), (200 : ℚ)), [(200 : ℚ), (200 : ℚ), (200 : ℚ), (200 : ℚ), (200 : ℚ)], [], [((100 : ℚ), (108 : ℚ)), ((100 : ℚ), (546/5 : ℚ)), ((100 : ℚ), (552/5 : ℚ)), ((100 : ℚ), (558/5 : ℚ)), ((100 : ℚ), (564/5 : ℚ))], [(1/2 : ℚ), (1/2 : ℚ), (1/2 : ℚ), (1/2 : ℚ), (1/2 : ℚ)], .moving, some (.stageD ⟨.none, 0, 0, 0⟩), some (105/1024 : ℚ), some (0 : ℚ)⟩)], (1 : ℚ), ⟨false, 0⟩, (5 : ℤ), 1⟩)
        ⟨1000, (1/5 : ℚ), [c4Obs 6]⟩ =
      .ok (⟨1, [⟨1, (50, 200, 150, 400), (100, 300), (2343/2048 : ℚ), 0, 0, 0, 0, (0 : ℚ), 0, 0, 1⟩], (1 : ℚ), Option.none⟩,
        ⟨(6 : ℤ), 30, (1/5 : ℚ), 24, 30, [(1, ⟨[((100 : ℚ), (300 : ℚ)), ((100 : ℚ), (300 : ℚ)), ((100 : ℚ), (300 : ℚ)), ((100 : ℚ), (300 : ℚ)), ((100 : ℚ), (300 : ℚ)), ((100 : ℚ), (300 : ℚ))], [(0 : ℚ), (0 : ℚ)], [(0 : ℚ), (0 : ℚ)], some ((100 : ℚ), (200 : ℚ)), [(200 : ℚ), (200 : ℚ), (200 : ℚ), (200 : ℚ), (200 : ℚ), (200 : ℚ)], [], [((100 : ℚ), (108 : ℚ)), ((100 : ℚ), (546/5 : ℚ)), ((100 : ℚ), (552/5 : ℚ)), ((100 : ℚ), (558/5 : ℚ)), ((100 : ℚ), (564/5 : ℚ)), ((100 : ℚ), (114 : ℚ))], [(1/2 : ℚ), (1/2 : ℚ), (1/2 : ℚ), (1/2 : ℚ), (1/2 : ℚ), (1/2 : ℚ)], .moving, some (.stageD ⟨.none, 0, 0, 0⟩), some (2343/20480 : ℚ), some (0 : ℚ)⟩)], (1 : ℚ), ⟨false, 0⟩, (6 : ℤ), 1⟩):= by
  norm_num only [process_frame, processTracks, stepTrack, poseBlock, kptsValid, torsoLen,
    refMath, ema, calculate_velocity, velocityScalars, calculate_angle,
    detect_head_downward_motion, detect_body_shape_change, detect_impact,
    analyze_temporal_pattern_entry, analyze_temporal_pattern, assess_severity,
    assess_severity_raw, strongIndicators, personStatus, emergencyStepSrc, lookupTrack,
    insertTrack, TrackState.empty, initEngineState, defaultConfig, pytrunc, meanQ, medianQ,
    sortQ, insertSorted, takeLast, truncTo, appendTrunc, maxListQ, c4Obs, hipY,
    motionMovImp, motionImpMov, stageNoneDesc, stageNoneHor, stageDescNone, stageDescHor,
    stageHorNone, stageHorDesc, if_false, if_true,
    List.range', List.length_cons, List.length_nil, List.reverse_cons, List.reverse_nil,
    List.cons_append, List.nil_append, List.append_nil,
    List.filterMap_cons, List.filterMap_nil, List.getD_cons_zero, List.getD_cons_succ,
    List.getD_nil, Option.getD_some, Option.getD_none,
    abs_zero, abs_neg, ite_true, ite_false,
    and_self, and_true, true_and, and_false, false_and, not_true, not_false_iff,
    ne_eq, eq_self_iff_true, List.foldr_cons, List.foldr_nil, List.cons_ne_nil,
    List.cons.injEq, List.map_cons, List.map_nil, List.all_cons, List.all_nil,
    List.drop_succ_cons, List.drop_nil, List.drop_zero,
    List.take_succ_cons, List.take_nil, List.take_zero,
    Except.ok.injEq, Prod.mk.injEq] <;>
    (try simp) <;> (try norm_num [personStatus, min_def, max_def]) <;> (try simp) <;>
    (try norm_num) <;> (try simp) <;> (try norm_num [personStatus]) <;> (try simp)

set_option maxHeartbeats 1000000 in
/-- Frame 7 of the slow-sink run, evaluated in closed form. -/
theorem c4Step7 :
    process_frame refMath defaultConfig (⟨(6 : ℤ), 30, (1/5 : ℚ), 24, 30, [(1, ⟨[((100 : ℚ), (300 : ℚ)), ((100 : ℚ), (300 : ℚ)), ((100 : ℚ), (300 : ℚ)), ((100 : ℚ), (300 : ℚ)), ((100 : ℚ), (300 : ℚ)), ((100 : ℚ), (300 : ℚ))], [(0 : ℚ), (0 : ℚ)], [(0 : ℚ), (0 : ℚ)], some ((100 : ℚ), (200 : ℚ)), [(200 : ℚ), (200 : ℚ), (200 : ℚ), (200 : ℚ), (200 : ℚ), (200 : ℚ)], [], [((100 : ℚ), (108 : ℚ)), ((100 : ℚ), (546/5 : ℚ)), ((100 : ℚ), (552/5 : ℚ)), ((100 : ℚ), (558/5 : ℚ)), ((100 : ℚ), (564/5 : ℚ)), ((100 : ℚ), (114 : ℚ))], [(1/2 : ℚ), (1/2 : ℚ), (1/2 : ℚ), (1/2 : ℚ), (1/2 : ℚ), (1/2 : ℚ)], .moving, some (.stageD ⟨.none, 0, 0, 0⟩), some (2343/20480 : ℚ), some (0 : ℚ)⟩)], (1 : ℚ), ⟨false, 0⟩, (6 : ℤ), 1⟩)
        ⟨1000, (7/30 : ℚ), [c4Obs 7]⟩ =
      .ok (⟨1, [⟨1, (50, 200, 150, 400), (100, 300), (10101/8192 : ℚ), 0, 0, 0, 0, (0 : ℚ), 0, 0, 1⟩], (1 : ℚ), Option.none⟩,
        ⟨(7 : ℤ), 30, (7/30 : ℚ), 24, 30, [(1, ⟨[((100 : ℚ), (300 : ℚ)), ((100 : ℚ), (300 : ℚ)), ((100 : ℚ), (300 : ℚ)), ((100 : ℚ), (300 : ℚ)), ((100 : ℚ), (300 : ℚ)), ((100 : ℚ), (300 : ℚ)), ((100 : ℚ), (300 : ℚ))], [(0 : ℚ), (0 : ℚ), (0 : ℚ)], [(0 : ℚ), (0 : ℚ), (0 : ℚ)], some ((100 : ℚ), (200 : ℚ)), [(200 : ℚ), (200 : ℚ), (200 : ℚ), (200 : ℚ), (200 : ℚ), (200 : ℚ), (200 : ℚ)], [], [((100 : ℚ), (108 : ℚ)), ((100 : ℚ), (546/5 : ℚ)), ((100 : ℚ), (552/5 : ℚ)), ((100 : ℚ), (558/5 : ℚ)), ((100 : ℚ), (564/5 : ℚ)), ((100 : ℚ), (114 : ℚ)), ((100 : ℚ), (576/5 : ℚ))], [(1/2 : ℚ), (1/2 : ℚ), (1/2 : ℚ), (1/2 : ℚ), (1/2 : ℚ), (1/2 : ℚ), (1/2 : ℚ)], .moving, some (.stageD ⟨.none, 0, 0, 0⟩), some (10101/81920 : ℚ), some (0 : ℚ)⟩)], (1 : ℚ), ⟨false, 0⟩, (7 : ℤ), 1⟩):= by
  norm_num only [process_frame, processTracks, stepTrack, poseBlock, kptsValid, torsoLen,
    refMath, ema, calculate_velocity, velocityScalars, calculate_angle,
    detect_head_downward_motion, detect_body_shape_change, detect_impact,
    analyze_temporal_pattern_entry, analyze_temporal_pattern, assess_severity,
    assess_severity_raw, strongIndicators, personStatus, emergencyStepSrc, lookupTrack,
    insertTrack, TrackState.empty, initEngineState, defaultConfig, pytrunc, meanQ, medianQ,
    sortQ, insertSorted, takeLast, truncTo, appendTrunc, maxListQ, c4Obs, hipY,
    motionMovImp, motionImpMov, stageNoneDesc, stageNoneHor, stageDescNone, stageDescHor,
    stageHorNone, stageHorDesc, if_false, if_true,
    List.range', List.length_cons, List.length_nil, List.reverse_cons, List.reverse_nil,
    List.cons_append, List.nil_append, List.append_nil,
    List.filterMap_cons, List.filterMap_nil, List.getD_cons_zero, List.getD_cons_succ,
    List.getD_nil, Option.getD_some, Option.getD_none,
    abs_zero, abs_neg, ite_true, ite_false,
    and_self, and_true, true_and, and_false, false_and, not_true, not_false_iff,
    ne_eq, eq_self_iff_true, List.foldr_cons, List.foldr_nil, List.cons_ne_nil,
    List.cons.injEq, List.map_cons, List.map_nil, List.all_cons, List.all_nil,
    List.drop_succ_cons, List.drop_nil, List.drop_zero,
    List.take_succ_cons, List.take_nil, List.take_zero,
    Except.ok.injEq, Prod.mk.injEq] <;>
    (try simp) <;> (try norm_num [personStatus, min_def, max_def]) <;> (try simp) <;>
    (try norm_num) <;> (try simp) <;> (try norm_num [personStatus]) <;> (try simp)

set_option maxHeartbeats 1000000 in
/-- Frame 8 of the slow-sink run, evaluated in closed form. -/
theorem c4Step8 :
    process_frame refMath defaultConfig (⟨(7 : ℤ), 30, (7/30 : ℚ), 24, 30, [(1, ⟨[((100 : ℚ), (300 : ℚ)), ((100 : ℚ), (300 : ℚ)), ((100 : ℚ), (300 : ℚ)), ((100 : ℚ), (300 : ℚ)), ((100 : ℚ), (300 : ℚ)), ((100 : ℚ), (300 : ℚ)), ((100 : ℚ), (300 : ℚ))], [(0 : ℚ), (0 : ℚ), (0 : ℚ)], [(0 : ℚ), (0 : ℚ), (0 : ℚ)], some ((100 : ℚ), (200 : ℚ)), [(200 : ℚ), (200 : ℚ), (200 : ℚ), (200 : ℚ), (200 : ℚ), (200 : ℚ), (200 : ℚ)], [], [((100 : ℚ), (108 : ℚ)), ((100 : ℚ), (546/5 : ℚ)), ((100 : ℚ), (552/5 : ℚ)), ((100 : ℚ), (558/5 : ℚ)), ((100 : ℚ), (564/5 : ℚ)), ((100 : ℚ), (114 : ℚ)), ((100 : ℚ), (576/5 : ℚ))], [(1/2 : ℚ), (1/2 : ℚ), (1/2 : ℚ), (1/2 : ℚ), (1/2 : ℚ), (1/2 : ℚ), (1/2 : ℚ)], .moving, some (.stageD ⟨.none, 0, 0, 0⟩), some (10101/81920 : ℚ), some (0 : ℚ)⟩)], (1 : ℚ), ⟨false, 0⟩, (7 : ℤ), 1⟩)
        ⟨1000, (4/15 : ℚ), [c4Obs 8]⟩ =
      .ok (⟨1, [⟨1, (-20, 200, 220, 400), (100, 300), (42591/32768 : ℚ), 0, 0, 0, 0, (7/15 : ℚ), 0, 0, 1⟩], (1 : ℚ), Option.none⟩,
        ⟨(8 : ℤ), 30, (4/15 : ℚ), 24, 30, [(1, ⟨[((100 : ℚ), (300 : ℚ)), ((100 : ℚ), (300 : ℚ)), ((100 : ℚ), (300 : ℚ)), ((100 : ℚ), (300 : ℚ)), ((100 : ℚ), (300 : ℚ)), ((100 : ℚ), (300 : ℚ)), ((100 : ℚ), (300 : ℚ)), ((100 : ℚ), (300 : ℚ))], [(0 : ℚ), (0 : ℚ), (0 : ℚ), (0 : ℚ)], [(0 : ℚ), (0 : ℚ), (0 : ℚ), (0 : ℚ)], some ((240 : ℚ), (200 : ℚ)), [(200 : ℚ), (200 : ℚ), (200 : ℚ), (200 : ℚ), (200 : ℚ), (200 : ℚ), (200 : ℚ), (200 : ℚ)], [], [((100 : ℚ), (108 : ℚ)), ((100 : ℚ), (546/5 : ℚ)), ((100 : ℚ), (552/5 : ℚ)), ((100 : ℚ), (558/5 : ℚ)), ((100 : ℚ), (564/5 : ℚ)), ((100 : ℚ), (114 : ℚ)), ((100 : ℚ), (576/5 : ℚ)), ((100 : ℚ), (582/5 : ℚ))], [(1/2 : ℚ), (1/2 : ℚ), (1/2 : ℚ), (1/2 : ℚ), (1/2 : ℚ), (1/2 : ℚ), (1/2 : ℚ), (6/5 : ℚ)], .moving, some (.stageD ⟨.none, 0, 0, 0⟩), some (42591/327680 : ℚ), some (0 : ℚ)⟩)], (1 : ℚ), ⟨false, 0⟩, (8 : ℤ), 1⟩):= by
  norm_num only [process_frame, processTracks, stepTrack, poseBlock, kptsValid, torsoLen,
    refMath, ema, calculate_velocity, velocityScalars, calculate_angle,
    detect_head_downward_motion, detect_body_shape_change, detect_impact,
    analyze_temporal_pattern_entry, analyze_temporal_pattern, assess_severity,
    assess_severity_raw, strongIndicators, personStatus, emergencyStepSrc, lookupTrack,
    insertTrack, TrackState.empty, initEngineState, defaultConfig, pytrunc, meanQ, medianQ,
    sortQ, insertSorted, takeLast, truncTo, appendTrunc, maxListQ, c4Obs, hipY,
    motionMovImp, motionImpMov, stageNoneDesc, stageNoneHor, stageDescNone, stageDescHor,
    stageHorNone, stageHorDesc, if_false, if_true,
    List.range', List.length_cons, List.length_nil, List.reverse_cons, List.reverse_nil,
    List.cons_append, List.nil_append, List.append_nil,
    List.filterMap_cons, List.filterMap_nil, List.getD_cons_zero, List.getD_cons_succ,
    List.getD_nil, Option.getD_some, Option.getD_none,
    abs_zero, abs_neg, ite_true, ite_false,
    and_self, and_true, true_and, and_false, false_and, not_true, not_false_iff,
    ne_eq, eq_self_iff_true, List.foldr_cons, List.foldr_nil, List.cons_ne_nil,
    List.cons.injEq, List.map_cons, List.map_nil, List.all_cons, List.all_nil,
    List.drop_succ_cons, List.drop_nil, List.drop_zero,
    List.take_succ_cons, List.take_nil, List.take_zero,
    Except.ok.injEq, Prod.mk.injEq] <;>
    (try simp) <;> (try norm_num [personStatus, min_def, max_def]) <;> (try simp) <;>
    (try norm_num) <;> (try simp) <;> (try norm_num [personStatus]) <;> (try simp)

set_option maxHeartbeats 1000000 in
/-- Frame 9 of the slow-sink run, evaluated in closed form. -/
theorem c4Step9 :
    process_frame refMath defaultConfig (⟨(8 : ℤ), 30, (4/15 : ℚ), 24, 30, [(1, ⟨[((100 : ℚ), (300 : ℚ)), ((100 : ℚ), (300 : ℚ)), ((100 : ℚ), (300 : ℚ)), ((100 : ℚ), (300 : ℚ)), ((100 : ℚ), (300 : ℚ)), ((100 : ℚ), (300 : ℚ)), ((100 : ℚ), (300 : ℚ)), ((100 : ℚ), (300 : ℚ))], [(0 : ℚ), (0 : ℚ), (0 : ℚ), (0 : ℚ)], [(0 : ℚ), (0 : ℚ), (0 : ℚ), (0 : ℚ)], some ((240 : ℚ), (200 : ℚ)), [(200 : ℚ), (200 : ℚ), (200 : ℚ), (200 : ℚ), (200 : ℚ), (200 : ℚ), (200 : ℚ), (200 : ℚ)], [], [((100 : ℚ), (108 : ℚ)), ((100 : ℚ), (546/5 : ℚ)), ((100 : ℚ), (552/5 : ℚ)), ((100 : ℚ), (558/5 : ℚ)), ((100 : ℚ), (564/5 : ℚ)), ((100 : ℚ), (114 : ℚ)), ((100 : ℚ), (576/5 : ℚ)), ((100 : ℚ), (582/5 : ℚ))], [(1/2 : ℚ), (1/2 : ℚ), (1/2 : ℚ), (1/2 : ℚ), (1/2 : ℚ), (1/2 : ℚ), (1/2 : ℚ), (6/5 : ℚ)], .moving, some (.stageD ⟨.none, 0, 0, 0⟩), some (42591/327680 : ℚ), some (0 : ℚ)⟩)], (1 : ℚ), ⟨false, 0⟩, (8 : ℤ), 1⟩)
        ⟨1000, (3/10 : ℚ), [c4Obs 9]⟩ =
      .ok (⟨1, [⟨1, (-20, 200, 220, 400), (100, 300), (176925/131072 : ℚ), 0, 0, 0, 0, (14/15 : ℚ), 0, 0, 1⟩], (1 : ℚ), Option.none⟩,
        ⟨(9 : ℤ), 30, (3/10 : ℚ), 24, 30, [(1, ⟨[((100 : ℚ), (300 : ℚ)), ((100 : ℚ), (300 : ℚ)), ((100 : ℚ), (300 : ℚ)), ((100 : ℚ), (300 : ℚ)), ((100 : ℚ), (300 : ℚ)), ((100 : ℚ), (300 : ℚ)), ((100 : ℚ), (300 : ℚ)), ((100 : ℚ), (300 : ℚ)), ((100 : ℚ), (300 : ℚ))], [(0 : ℚ), (0 : ℚ), (0 : ℚ), (0 : ℚ), (0 : ℚ)], [(0 : ℚ), (0 : ℚ), (0 : ℚ), (0 : ℚ), (0 : ℚ)], some ((240 : ℚ), (200 : ℚ)), [(200 : ℚ), (200 : ℚ), (200 : ℚ), (200 : ℚ), (200 : ℚ), (200 : ℚ), (200 : ℚ), (200 : ℚ), (200 : ℚ)], [], [((100 : ℚ), (108 : ℚ)), ((100 : ℚ), (546/5 : ℚ)), ((100 : ℚ), (552/5 : ℚ)), ((100 : ℚ), (558/5 : ℚ)), ((100 : ℚ), (564/5 : ℚ)), ((100 : ℚ), (114 : ℚ)), ((100 : ℚ), (576/5 : ℚ)), ((100 : ℚ), (582/5 : ℚ)), ((100 : ℚ), (588/5 : ℚ))], [(1/2 : ℚ), (1/2 : ℚ), (1/2 : ℚ), (1/2 : ℚ), (1/2 : ℚ), (1/2 : ℚ), (1/2 : ℚ), (6/5 : ℚ), (6/5 : ℚ)], .moving, some (.stageD ⟨.none, 0, 0, 0⟩), some (35385/262144 : ℚ), some (0 : ℚ)⟩)], (1 : ℚ), ⟨false, 0⟩, (9 : ℤ), 1⟩):= by
  norm_num only [process_frame, processTracks, stepTrack, poseBlock, kptsValid, torsoLen,
    refMath, ema, calculate_velocity, velocityScalars, calculate_angle,
    detect_head_downward_motion, detect_body_shape_change, detect_impact,
    analyze_temporal_pattern_entry, analyze_temporal_pattern, assess_severity,
    assess_severity_raw, strongIndicators, personStatus, emergencyStepSrc, lookupTrack,
    insertTrack, TrackState.empty, initEngineState, defaultConfig, pytrunc, meanQ, medianQ,
    sortQ, insertSorted, takeLast, truncTo, appendTrunc, maxListQ, c4Obs, hipY,
    motionMovImp, motionImpMov, stageNoneDesc, stageNoneHor, stageDescNone, stageDescHor,
    stageHorNone, stageHorDesc, if_false, if_true,
    List.range', List.length_cons, List.length_nil, List.reverse_cons, List.reverse_nil,
    List.cons_append, List.nil_append, List.append_nil,
    List.filterMap_cons, List.filterMap_nil, List.getD_cons_zero, List.getD_cons_succ,
    List.getD_nil, Option.getD_some, Option.getD_none,
    abs_zero, abs_neg, ite_true, ite_false,
    and_self, and_true, true_and, and_false, false_and, not_true, not_false_iff,
    ne_eq, eq_self_iff_true, List.foldr_cons, List.foldr_nil, List.cons_ne_nil,
    List.cons.injEq, List.map_cons, List.map_nil, List.all_cons, List.all_nil,
    List.drop_succ_cons, List.drop_nil, List.drop_zero,
    List.take_succ_cons, List.take_nil, List.take_zero,
    Except.ok.injEq, Prod.mk.injEq] <;>
    (try simp) <;> (try norm_num [personStatus, min_def, max_def]) <;> (try simp) <;>
    (try norm_num) <;> (try simp) <;> (try norm_num [personStatus]) <;> (try simp)

set_option maxHeartbeats 1000000 in
/-- Frame 10 of the slow-sink run, evaluated in closed form. -/
theorem c4Step10 :
    process_frame refMath defaultConfig (⟨(9 : ℤ), 30, (3/10 : ℚ), 24, 30, [(1, ⟨[((100 : ℚ), (300 : ℚ)), ((100 : ℚ), (300 : ℚ)), ((100 : ℚ), (300 : ℚ)), ((100 : ℚ), (300 : ℚ)), ((100 : ℚ), (300 : ℚ)), ((100 : ℚ), (300 : ℚ)), ((100 : ℚ), (300 : ℚ)), ((100 : ℚ), (300 : ℚ)), ((100 : ℚ), (300 : ℚ))], [(0 : ℚ), (0 : ℚ), (0 : ℚ), (0 : ℚ), (0 : ℚ)], [(0 : ℚ), (0 : ℚ), (0 : ℚ), (0 : ℚ), (0 : ℚ)], some ((240 : ℚ), (200 : ℚ)), [(200 : ℚ), (200 : ℚ), (200 : ℚ), (200 : ℚ), (200 : ℚ), (200 : ℚ), (200 : ℚ), (200 : ℚ), (200 : ℚ)], [], [((100 : ℚ), (108 : ℚ)), ((100 : ℚ), (546/5 : ℚ)), ((100 : ℚ), (552/5 : ℚ)), ((100 : ℚ), (558/5 : ℚ)), ((100 : ℚ), (564/5 : ℚ)), ((100 : ℚ), (114 : ℚ)), ((100 : ℚ), (576/5 : ℚ)), ((100 : ℚ), (582/5 : ℚ)), ((100 : ℚ), (588/5 : ℚ))], [(1/2 : ℚ), (1/2 : ℚ), (1/2 : ℚ), (1/2 : ℚ), (1/2 : ℚ), (1/2 : ℚ), (1/2 : ℚ), (6/5 : ℚ), (6/5 : ℚ)], .moving, some (.stageD ⟨.none, 0, 0, 0⟩), some (35385/262144 : ℚ), some (0 : ℚ)⟩)], (1 : ℚ), ⟨false, 0⟩, (9 : ℤ), 1⟩)
        ⟨1000, (1/3 : ℚ), [c4Obs 10]⟩ =
      .ok (⟨1, [⟨1, (-20, 200, 220, 400), (100, 300), (727383/524288 : ℚ), 0, 0, 0, 0, (7/5 : ℚ), 0, 0, 2⟩], (2 : ℚ), Option.none⟩,
        ⟨(10 : ℤ), 30, (1/3 : ℚ), 24, 30, [(1, ⟨[((100 : ℚ), (300 : ℚ)), ((100 : ℚ), (300 : ℚ)), ((100 : ℚ), (300 : ℚ)), ((100 : ℚ), (300 : ℚ)), ((100 : ℚ), (300 : ℚ)), ((100 : ℚ), (300 : ℚ)), ((100 : ℚ), (300 : ℚ)), ((100 : ℚ), (300 : ℚ)), ((100 : ℚ), (300 : ℚ)), ((100 : ℚ), (300 : ℚ))], [(0 : ℚ), (0 : ℚ), (0 : ℚ), (0 : ℚ), (0 : ℚ), (0 : ℚ)], [(0 : ℚ), (0 : ℚ), (0 : ℚ), (0 : ℚ), (0 : ℚ), (0 : ℚ)], some ((240 : ℚ), (200 : ℚ)), [(200 : ℚ), (200 : ℚ), (200 : ℚ), (200 : ℚ), (200 : ℚ), (200 : ℚ), (200 : ℚ), (200 : ℚ), (200 : ℚ), (200 : ℚ)], [], [((100 : ℚ), (108 : ℚ)), ((100 : ℚ), (546/5 : ℚ)), ((100 : ℚ), (552/5 : ℚ)), ((100 : ℚ), (558/5 : ℚ)), ((100 : ℚ), (564/5 : ℚ)), ((100 : ℚ), (114 : ℚ)), ((100 : ℚ), (576/5 : ℚ)), ((100 : ℚ), (582/5 : ℚ)), ((100 : ℚ), (588/5 : ℚ)), ((100 : ℚ), (594/5 : ℚ))], [(1/2 : ℚ), (1/2 : ℚ), (1/2 : ℚ), (1/2 : ℚ), (1/2 : ℚ), (1/2 : ℚ), (1/2 : ℚ), (6/5 : ℚ), (6/5 : ℚ), (6/5 : ℚ)], .moving, some (.stageD ⟨.none, 0, 0, 0⟩), some (727383/5242880 : ℚ), some (0 : ℚ)⟩)], (2 : ℚ), ⟨false, 0⟩, (10 : ℤ), 1⟩):= by
  norm_num only [process_frame, processTracks, stepTrack, poseBlock, kptsValid, torsoLen,
    refMath, ema, calculate_velocity, velocityScalars, calculate_angle,
    detect_head_downward_motion, detect_body_shape_change, detect_impact,
    analyze_temporal_pattern_entry, analyze_temporal_pattern, assess_severity,
    assess_severity_raw, strongIndicators, personStatus, emergencyStepSrc, lookupTrack,
    insertTrack, TrackState.empty, initEngineState, defaultConfig, pytrunc, meanQ, medianQ,
    sortQ, insertSorted, takeLast, truncTo, appendTrunc, maxListQ, c4Obs, hipY,
    motionMovImp, motionImpMov, stageNoneDesc, stageNoneHor, stageDescNone, stageDescHor,
    stageHorNone, stageHorDesc, if_false, if_true,
    List.range', List.length_cons, List.length_nil, List.reverse_cons, List.reverse_nil,
    List.cons_append, List.nil_append, List.append_nil,
    List.filterMap_cons, List.filterMap_nil, List.getD_cons_zero, List.getD_cons_succ,
    List.getD_nil, Option.getD_some, Option.getD_none,
    abs_zero, abs_neg, ite_true, ite_false,
    and_self, and_true, true_and, and_false, false_and, not_true, not_false_iff,
    ne_eq, eq_self_iff_true, List.foldr_cons, List.foldr_nil, List.cons_ne_nil,
    List.cons.injEq, List.map_cons, List.map_nil, List.all_cons, List.all_nil,
    List.drop_succ_cons, List.drop_nil, List.drop_zero,
    List.take_succ_cons, List.take_nil, List.take_zero,
    Except.ok.injEq, Prod.mk.injEq] <;>
    (try simp) <;> (try norm_num [personStatus, min_def, max_def]) <;> (try simp) <;>
    (try norm_num) <;> (try simp) <;> (try norm_num [personStatus]) <;> (try simp)

/-- C4 counterexample: a track whose normalized vertical velocity is 0 on
frame 1 and 3/20 on frames 2-10 (inside [-0.2, 0.2] throughout) and whose
reported angle is 0 (far below the 75-degree threshold) for all 10
consecutive frames is nevertheless reported with severity 2 on frame 10:
the scorer's velocity input is max(bbox velocity, 10 x smoothed v_norm)
which reaches about 1.39 >= 1, so the static hard floor does not fire,
and the aspect-ratio trend score contributes a point.  This refutes
"severity is 1 on those frames". -/
theorem c4_counterexample :
    resultSeverities (runEngine refMath defaultConfig (initEngineState 0) c4Inputs) =
      [[1], [1], [1], [1], [1], [1], [1], [1], [1], [2]] ∧
    resultAngles (runEngine refMath defaultConfig (initEngineState 0) c4Inputs) =
      [[0], [0], [0], [0], [0], [0], [0], [0], [0], [0]] ∧
    c4VNorms = List.replicate 9 (3/20) ∧
    (-(1/5) : ℚ) ≤ 3/20 ∧ (3/20 : ℚ) ≤ 1/5 := by
  refine ⟨?_, ?_, ?_, by norm_num, by norm_num⟩
  · simp only [c4Inputs, runEngine, c4Step1, c4Step2, c4Step3, c4Step4,
      c4Step5, c4Step6, c4Step7, c4Step8, c4Step9, c4Step10, resultSeverities,
      List.map_cons, List.map_nil]
  · simp only [c4Inputs, runEngine, c4Step1, c4Step2, c4Step3, c4Step4,
      c4Step5, c4Step6, c4Step7, c4Step8, c4Step9, c4Step10, resultAngles,
      List.map_cons, List.map_nil]
  · norm_num [c4VNorms, hipY, torsoLen, refMath, List.range', List.replicate]

end FallDetect
